import Mathlib

/-!
Verification development for the knowledge-base provisioning script
aiops-seed-code/bedrock-agents/model_build/source_scripts/knowledge_base/main.py.

The script is a single-threaded orchestrator over remote calls.  The embedding
models every remote call through an environment record of responses, threads an
explicit trace of the calls that were issued, and models Python exceptions with
an explicit error type carried in Except.  Line numbers in the doc comments
refer to main.py.
-/

set_option maxRecDepth 8000
set_option linter.unusedVariables false

namespace KBMain

/-- Model of the Python exception values raised by the script.  notFoundException
is the service-specific NotFoundException (a subclass of ClientError); clientError
covers every other ClientError and carries the botocore error code; exc is a
generic Exception; timeoutError models TimeoutError. -/
inductive PyError where
  | notFoundException (msg : String)
  | clientError (code : String) (msg : String)
  | exc (msg : String)
  | timeoutError (msg : String)
  deriving DecidableEq, Repr

/-- Model of the Python str(e) rendering of an exception: the carried message. -/
def PyError.str : PyError → String
  | .notFoundException m => m
  | .clientError _ m => m
  | .exc m => m
  | .timeoutError m => m

/-- One entry of the list_knowledge_bases response (the fields the script reads). -/
structure KBSummary where
  name : String
  knowledgeBaseId : String
  deriving DecidableEq, Repr

/-- One entry of the list_data_sources response (the field the script reads). -/
structure DSSummary where
  dataSourceId : String
  deriving DecidableEq, Repr

/-- One entry of the list_agents response (the fields the script reads). -/
structure AgentSummary where
  agentName : String
  agentId : String
  deriving DecidableEq, Repr

/-- The statistics block of a get_ingestion_job response. -/
structure IngestionStatistics where
  numberOfDocumentsScanned : Nat
  numberOfDocumentsIndexed : Nat
  numberOfDocumentsFailed : Nat
  numberOfNewChunksIndexed : Nat
  numberOfModifiedChunksIndexed : Nat
  numberOfChunksDeleted : Nat
  deriving DecidableEq, Repr

/-- The all-zero statistics used when the response carries no statistics block
(every field is read with .get(key, 0) at lines 969-974). -/
def IngestionStatistics.zero : IngestionStatistics :=
  { numberOfDocumentsScanned := 0, numberOfDocumentsIndexed := 0,
    numberOfDocumentsFailed := 0, numberOfNewChunksIndexed := 0,
    numberOfModifiedChunksIndexed := 0, numberOfChunksDeleted := 0 }

/-- An ingestionJob payload as returned by get_ingestion_job. -/
structure IngestionJob where
  ingestionJobId : String
  status : String
  statistics : Option IngestionStatistics
  failureReasons : List String
  deriving DecidableEq, Repr

/-- Return value of ensure_s3_vectors_storage (lines 154-158). -/
structure S3VectorsConfig where
  vectorBucketArn : String
  indexArn : String
  indexName : String
  deriving DecidableEq, Repr

/-- Return value of ensure_opensearch_serverless_collection (lines 332-335). -/
structure OpenSearchConfig where
  collectionArn : String
  collectionEndpoint : String
  deriving DecidableEq, Repr

/-- The remote calls the script can issue, recorded in order in a trace. -/
inductive CallEvent where
  | getCallerIdentity
  | listKnowledgeBases
  | listDataSources (kbId : String)
  | createDataSource (kbId : String) (name : String) (s3uri : String)
      (maxTokens : Nat) (overlapPercentage : Nat)
  | getVectorBucket (bucket : String)
  | createVectorBucket (bucket : String)
  | getIndex (bucket : String) (index : String)
  | deleteIndex (bucket : String) (index : String)
  | createIndex (bucket : String) (index : String) (dim : Nat)
  | createKnowledgeBase (name : String) (roleArn : String) (storageType : String)
  | getKnowledgeBase (attempt : Nat)
  | ensureOpensearchCollection (collection : String) (roleArn : String)
  | createOpensearchIndex (index : String)
  | startIngestionJob (kbId : String) (dsId : String)
  | getIngestionJob (attempt : Nat)
  | listAgents
  | associateAgentKnowledgeBase (agentId : String) (kbId : String)
  deriving DecidableEq, Repr

/-- The parsed command-line arguments of main (lines 750-765). -/
structure Args where
  agent_name : String
  s3_uri : String
  region : String
  enable : String
  max_tokens : Nat
  overlap_percentage : Nat
  ingestion_timeout : Nat
  skip_ingestion : Bool
  deriving DecidableEq, Repr

/-- The ingestion sub-record of the output dict (initialised at lines 781-785,
overwritten at lines 966-975). -/
structure IngestionOutput where
  status : String
  job_id : Option String
  documents_scanned : Nat
  documents_indexed : Nat
  documents_failed : Nat
  chunks_created : Nat
  chunks_modified : Nat
  chunks_deleted : Nat
  deriving DecidableEq, Repr

/-- The output dict written to kb_output.json (lines 776-786 and later updates).
Keys that Python adds only on some paths are modelled as Option fields. -/
structure Output where
  enabled : Bool
  knowledge_base_id : Option String
  data_source_id : Option String
  status : String
  ingestion : IngestionOutput
  vectors_bucket : Option String
  vectors_index : Option String
  storage_type : Option String
  opensearch_collection : Option String
  opensearch_index : Option String
  agent_associated : Option Bool
  error : Option String
  deriving DecidableEq, Repr

/-- Responses of the external services and the process environment, fixed per
run.  Poll-style calls receive the attempt number so a run can observe a status
that changes over time.  The delete_index response is absent because the source
ignores every outcome of that call (lines 111-122 catch all exceptions). -/
structure Env where
  kb_role_arn_env : Option String
  get_caller_identity : Except PyError String
  list_knowledge_bases : Except PyError (List KBSummary)
  list_data_sources : String → Except PyError (List DSSummary)
  create_data_source_resp : Except PyError String
  get_vector_bucket : Except PyError Unit
  create_vector_bucket : Except PyError Unit
  get_index : Except PyError Unit
  create_index : Except PyError Unit
  create_knowledge_base_resp : Except PyError String
  get_kb_status : Nat → Except PyError String
  ensure_collection_resp : Except PyError OpenSearchConfig
  create_os_index_resp : Except PyError Unit
  create_kb_oss_resp : Except PyError String
  get_kb_oss_status : Nat → Except PyError String
  start_ingestion_job_resp : Except PyError String
  get_ingestion_job : Nat → Except PyError IngestionJob
  list_agents : Except PyError (List AgentSummary)
  associate_resp : Except PyError Unit

/-- Python repr of a list of strings, as interpolated into failure messages. -/
def pyStrList (l : List String) : String :=
  "[" ++ String.intercalate ", " (l.map fun s => "\x27" ++ s ++ "\x27") ++ "]"

/-- Models the Python str.lower() calls of lines 777, 788 and 895-896 as a
character map (the inputs in scope are ASCII), written structurally so that
concrete runs evaluate inside the kernel. -/
def pyLower (s : String) : String := String.mk (s.data.map Char.toLower)

/-- Models the Python single-character str.replace of lines 895-896, written
structurally so that concrete runs evaluate inside the kernel. -/
def pyReplaceChar (a b : Char) (s : String) : String :=
  String.mk (s.data.map fun c => if c = a then b else c)

/-- The hard-coded DataZone role of line 838. -/
def datazone_fallback_role_arn : String :=
  "arn:aws:iam::767397690934:role/datazone_usr_role_csmtso44tnnlbb_5yhcmrrp0v7acn"

/-- Role resolution of lines 835-841: KB_ROLE_ARN from the environment, with any
falsy value (absent or empty) replaced by the hard-coded DataZone role. -/
def resolve_kb_role_arn : Option String → String
  | none => datazone_fallback_role_arn
  | some s => if s = "" then datazone_fallback_role_arn else s

/-- The embedding model ARN computed at line 845. -/
def kb_embedding_model_arn (region : String) : String :=
  "arn:aws:bedrock:" ++ region ++ "::foundation-model/amazon.titan-embed-text-v2:0"

/-- Models get_existing_knowledge_base (lines 29-48): one list_knowledge_bases
call; the first summary whose name matches is returned; every ClientError
(including its NotFoundException subclass) is logged and swallowed, giving None;
a non-ClientError exception propagates. -/
def get_existing_knowledge_base (resp : Except PyError (List KBSummary))
    (kb_name : String) : Except PyError (Option KBSummary) × List CallEvent :=
  match resp with
  | .ok kbs => (.ok (kbs.find? fun kb => kb.name == kb_name), [.listKnowledgeBases])
  | .error (.notFoundException _) => (.ok none, [.listKnowledgeBases])
  | .error (.clientError _ _) => (.ok none, [.listKnowledgeBases])
  | .error e => (.error e, [.listKnowledgeBases])

/-- The not-found error codes accepted for the vector bucket probe (line 85). -/
def not_found_bucket_codes : List String :=
  ["NoSuchVectorBucket", "ResourceNotFoundException"]

/-- The not-found error codes accepted for the vector index probe (line 106). -/
def not_found_index_codes : List String :=
  ["NoSuchIndex", "ResourceNotFoundException"]

/-- Step 1 of ensure_s3_vectors_storage (lines 74-90): probe the vector bucket
and create it when the probe fails in a not-found shape (NotFoundException, or a
ClientError whose code is in the known list); any other error propagates. -/
def ensure_vector_bucket (get_resp create_resp : Except PyError Unit)
    (bucket : String) : Except PyError Unit × List CallEvent :=
  match get_resp with
  | .ok _ => (.ok (), [.getVectorBucket bucket])
  | .error (.notFoundException _) =>
    (match create_resp with
     | .ok _ => (.ok (), [.getVectorBucket bucket, .createVectorBucket bucket])
     | .error e => (.error e, [.getVectorBucket bucket, .createVectorBucket bucket]))
  | .error (.clientError code m) =>
    if code ∈ not_found_bucket_codes then
      (match create_resp with
       | .ok _ => (.ok (), [.getVectorBucket bucket, .createVectorBucket bucket])
       | .error e => (.error e, [.getVectorBucket bucket, .createVectorBucket bucket]))
    else
      (.error (.clientError code m), [.getVectorBucket bucket])
  | .error e => (.error e, [.getVectorBucket bucket])

/-- Step 2 of ensure_s3_vectors_storage (lines 92-108): probe the index; a
not-found shape gives false, success gives true, any other error propagates. -/
def probe_vector_index (get_resp : Except PyError Unit) (bucket index : String) :
    Except PyError Bool × List CallEvent :=
  match get_resp with
  | .ok _ => (.ok true, [.getIndex bucket index])
  | .error (.notFoundException _) => (.ok false, [.getIndex bucket index])
  | .error (.clientError code m) =>
    if code ∈ not_found_index_codes then (.ok false, [.getIndex bucket index])
    else (.error (.clientError code m), [.getIndex bucket index])
  | .error e => (.error e, [.getIndex bucket index])

/-- Step 4 of ensure_s3_vectors_storage (lines 124-145): create the index; a
ConflictException only waits and continues; any other ClientError or exception
propagates.  The fixed settle sleeps are not observable in the model. -/
def create_vector_index (create_resp : Except PyError Unit)
    (bucket index : String) (dim : Nat) : Except PyError Unit × List CallEvent :=
  match create_resp with
  | .ok _ => (.ok (), [.createIndex bucket index dim])
  | .error (.clientError code m) =>
    if code = "ConflictException" then (.ok (), [.createIndex bucket index dim])
    else (.error (.clientError code m), [.createIndex bucket index dim])
  | .error e => (.error e, [.createIndex bucket index dim])

/-- Models ensure_s3_vectors_storage (lines 51-158): ensure the bucket, probe the
index, delete it when present (every deletion failure is only warned about, lines
111-122), recreate it, and return the computed ARNs. -/
def ensure_s3_vectors_storage (env : Env) (bucket index region account : String)
    (dim : Nat) : Except PyError S3VectorsConfig × List CallEvent :=
  match ensure_vector_bucket env.get_vector_bucket env.create_vector_bucket bucket with
  | (.error e, tr1) => (.error e, tr1)
  | (.ok _, tr1) =>
    match probe_vector_index env.get_index bucket index with
    | (.error e, tr2) => (.error e, tr1 ++ tr2)
    | (.ok index_exists, tr2) =>
      let tr3 := if index_exists then [CallEvent.deleteIndex bucket index] else []
      match create_vector_index env.create_index bucket index dim with
      | (.error e, tr4) => (.error e, tr1 ++ tr2 ++ tr3 ++ tr4)
      | (.ok _, tr4) =>
        (.ok { vectorBucketArn :=
                 "arn:aws:s3vectors:" ++ region ++ ":" ++ account ++
                   ":vector-bucket/" ++ bucket
             , indexArn :=
                 "arn:aws:s3vectors:" ++ region ++ ":" ++ account ++
                   ":vector-bucket/" ++ bucket ++ "/index/" ++ index
             , indexName := index },
         tr1 ++ tr2 ++ tr3 ++ tr4)

/-- The 30-round status poll shared by create_knowledge_base (lines 227-242) and
create_knowledge_base_with_opensearch (lines 570-585): ACTIVE breaks, FAILED
raises, any other status sleeps 10 seconds and retries; when the 30 rounds are
exhausted the source only logs a warning and falls through - it raises no
TimeoutError.  The raised message models the interpolated response by its
status field. -/
def kb_wait_loop (getStatus : Nat → Except PyError String) (i fuel : Nat) :
    Except PyError Unit × List CallEvent :=
  match fuel with
  | 0 => (.ok (), [])
  | fuel' + 1 =>
    match getStatus i with
    | .error e => (.error e, [.getKnowledgeBase i])
    | .ok status =>
      if status = "ACTIVE" then (.ok (), [.getKnowledgeBase i])
      else if status = "FAILED" then
        (.error (.exc ("Knowledge base creation failed: " ++ status)),
         [.getKnowledgeBase i])
      else
        match kb_wait_loop getStatus (i + 1) fuel' with
        | (r, tr) => (r, .getKnowledgeBase i :: tr)

/-- Models create_knowledge_base (lines 161-243): one create call followed by the
30-round poll; the created id is returned even when the poll exhausts its
budget. -/
def create_knowledge_base (create_resp : Except PyError String)
    (getStatus : Nat → Except PyError String)
    (kb_name description role_arn embedding_model_arn : String)
    (cfg : S3VectorsConfig) : Except PyError String × List CallEvent :=
  match create_resp with
  | .error e => (.error e, [.createKnowledgeBase kb_name role_arn "S3_VECTORS"])
  | .ok kbId =>
    match kb_wait_loop getStatus 0 30 with
    | (.error e, tr) =>
      (.error e, .createKnowledgeBase kb_name role_arn "S3_VECTORS" :: tr)
    | (.ok _, tr) =>
      (.ok kbId, .createKnowledgeBase kb_name role_arn "S3_VECTORS" :: tr)

/-- Models create_knowledge_base_with_opensearch (lines 506-586): same create and
poll structure against the OpenSearch Serverless storage configuration. -/
def create_knowledge_base_with_opensearch (create_resp : Except PyError String)
    (getStatus : Nat → Except PyError String)
    (kb_name description role_arn embedding_model_arn : String)
    (cfg : OpenSearchConfig) (index_name : String) :
    Except PyError String × List CallEvent :=
  match create_resp with
  | .error e =>
    (.error e, [.createKnowledgeBase kb_name role_arn "OPENSEARCH_SERVERLESS"])
  | .ok kbId =>
    match kb_wait_loop getStatus 0 30 with
    | (.error e, tr) =>
      (.error e, .createKnowledgeBase kb_name role_arn "OPENSEARCH_SERVERLESS" :: tr)
    | (.ok _, tr) =>
      (.ok kbId, .createKnowledgeBase kb_name role_arn "OPENSEARCH_SERVERLESS" :: tr)

/-- Models create_data_source (lines 246-298): one create call carrying the
chunking policy; the bucket and prefix split of the S3 URI only shapes the
request payload and is recorded through the URI. -/
def create_data_source (resp : Except PyError String)
    (kb_id s3_uri ds_name : String) (max_tokens overlap_percentage : Nat) :
    Except PyError String × List CallEvent :=
  (resp, [.createDataSource kb_id ds_name s3_uri max_tokens overlap_percentage])

/-- Models start_ingestion_job (lines 589-617): one start call giving a job id. -/
def start_ingestion_job (resp : Except PyError String) (kb_id ds_id : String) :
    Except PyError String × List CallEvent :=
  (resp, [.startIngestionJob kb_id ds_id])

/-- The poll loop of wait_for_ingestion_job (lines 620-680): at most
timeout_minutes * 6 get_ingestion_job calls.  COMPLETE returns the job, FAILED
raises an Exception embedding the failureReasons, STARTING or IN_PROGRESS and
any unknown status both sleep 10 seconds and retry; an exhausted budget raises
TimeoutError whose message carries only the timeout in minutes. -/
def ingestion_wait_loop (getJob : Nat → Except PyError IngestionJob)
    (timeout_minutes i fuel : Nat) : Except PyError IngestionJob × List CallEvent :=
  match fuel with
  | 0 =>
    (.error (.timeoutError
      ("Ingestion job timeout after " ++ toString timeout_minutes ++ " minutes")), [])
  | fuel' + 1 =>
    match getJob i with
    | .error e => (.error e, [.getIngestionJob i])
    | .ok job =>
      if job.status = "COMPLETE" then (.ok job, [.getIngestionJob i])
      else if job.status = "FAILED" then
        (.error (.exc ("Ingestion job failed: " ++ pyStrList job.failureReasons)),
         [.getIngestionJob i])
      else
        match ingestion_wait_loop getJob timeout_minutes (i + 1) fuel' with
        | (r, tr) => (r, .getIngestionJob i :: tr)

/-- Models wait_for_ingestion_job (lines 620-680): max_attempts is
timeout_minutes * 6 (one check every 10 seconds, line 641). -/
def wait_for_ingestion_job (getJob : Nat → Except PyError IngestionJob)
    (timeout_minutes : Nat) : Except PyError IngestionJob × List CallEvent :=
  ingestion_wait_loop getJob timeout_minutes 0 (timeout_minutes * 6)

/-- Models sync_documents_to_kb (lines 683-726): start the job then wait. -/
def sync_documents_to_kb (env : Env) (kb_id ds_id : String)
    (timeout_minutes : Nat) : Except PyError IngestionJob × List CallEvent :=
  match start_ingestion_job env.start_ingestion_job_resp kb_id ds_id with
  | (.error e, tr) => (.error e, tr)
  | (.ok _, tr1) =>
    match wait_for_ingestion_job env.get_ingestion_job timeout_minutes with
    | (r, tr2) => (r, tr1 ++ tr2)

/-- Models associate_kb_to_agent (lines 729-746): one association call. -/
def associate_kb_to_agent (resp : Except PyError Unit) (agent_id kb_id : String) :
    Except PyError Unit × List CallEvent :=
  (resp, [.associateAgentKnowledgeBase agent_id kb_id])

/-- Summarises ensure_opensearch_serverless_collection (lines 305-429) as one
traced provisioning call: its body is only security-policy, access-policy and
collection creation plus a poll against the AOSS client, and any exception that
escapes it propagates unchanged to the caller in main. -/
def ensure_opensearch_serverless_collection (resp : Except PyError OpenSearchConfig)
    (collection_name kb_role_arn : String) :
    Except PyError OpenSearchConfig × List CallEvent :=
  (resp, [.ensureOpensearchCollection collection_name kb_role_arn])

/-- Summarises create_opensearch_index (lines 432-503) as one traced call: the
signed HTTP PUT logs every non-2xx outcome and returns the index name; only a
transport-level exception propagates. -/
def create_opensearch_index (resp : Except PyError Unit) (index_name : String) :
    Except PyError Unit × List CallEvent :=
  (resp, [.createOpensearchIndex index_name])

/-- The initial ingestion sub-record of lines 781-785. -/
def initial_ingestion_output : IngestionOutput :=
  { status := "skipped", job_id := none, documents_scanned := 0,
    documents_indexed := 0, documents_failed := 0, chunks_created := 0,
    chunks_modified := 0, chunks_deleted := 0 }

/-- The initial output dict of lines 776-786. -/
def initial_output (enable : String) : Output :=
  { enabled := pyLower enable == "true", knowledge_base_id := none,
    data_source_id := none, status := "skipped",
    ingestion := initial_ingestion_output, vectors_bucket := none,
    vectors_index := none, storage_type := none, opensearch_collection := none,
    opensearch_index := none, agent_associated := none, error := none }

/-- Statistics extraction with .get(key, 0) defaults (lines 965-974). -/
def stats_or_zero : Option IngestionStatistics → IngestionStatistics
  | some s => s
  | none => IngestionStatistics.zero

/-- Models the association block of main (lines 982-999): list agents, find the
matching name, associate when found; every exception raised in this block is
caught and only flips agent_associated to false. -/
def main_associate (env : Env) (agent_name : String) (out : Output)
    (kb_id : String) : Output × List CallEvent :=
  match env.list_agents with
  | .error _ => ({ out with agent_associated := some false }, [.listAgents])
  | .ok agents =>
    match agents.find? fun a => a.agentName == agent_name with
    | none => ({ out with agent_associated := some false }, [.listAgents])
    | some a =>
      match (associate_kb_to_agent env.associate_resp a.agentId kb_id).1 with
      | .ok _ =>
        ({ out with agent_associated := some true },
         .listAgents :: (associate_kb_to_agent env.associate_resp a.agentId kb_id).2)
      | .error _ =>
        ({ out with agent_associated := some false },
         .listAgents :: (associate_kb_to_agent env.associate_resp a.agentId kb_id).2)

/-- The output dict after a completed ingestion recorded its statistics
(lines 965-975), with .get(key, 0) defaults for a missing statistics block. -/
def ing_updated_out (out : Output) (job : IngestionJob) : Output :=
  { out with ingestion :=
    { status := "completed", job_id := some job.ingestionJobId,
      documents_scanned := (stats_or_zero job.statistics).numberOfDocumentsScanned,
      documents_indexed := (stats_or_zero job.statistics).numberOfDocumentsIndexed,
      documents_failed := (stats_or_zero job.statistics).numberOfDocumentsFailed,
      chunks_created := (stats_or_zero job.statistics).numberOfNewChunksIndexed,
      chunks_modified := (stats_or_zero job.statistics).numberOfModifiedChunksIndexed,
      chunks_deleted := (stats_or_zero job.statistics).numberOfChunksDeleted } }

/-- The output dict with the ingestion status re-set to skipped (line 980). -/
def skip_updated_out (out : Output) : Output :=
  { out with ingestion := { out.ingestion with status := "skipped" } }

/-- Models the ingestion and association tail of main (lines 953-999).  An error
value carries the output dict as mutated up to the raise, matching the dict the
outer handler of main sees. -/
def main_ingestion_and_assoc (args : Args) (env : Env) (out : Output)
    (kb_id ds_id : String) :
    Except (PyError × Output) Output × List CallEvent :=
  if args.skip_ingestion then
    match main_associate env args.agent_name (skip_updated_out out) kb_id with
    | (out2, tr) => (.ok out2, tr)
  else
    match sync_documents_to_kb env kb_id ds_id args.ingestion_timeout with
    | (.error e, tr) => (.error (e, out), tr)
    | (.ok job, tr1) =>
      match main_associate env args.agent_name (ing_updated_out out job) kb_id with
      | (out2, tr2) => (.ok out2, tr1 ++ tr2)

/-- Models the primary attempt of main (lines 851-879): S3 Vectors storage, then
the knowledge base bound to it.  The vectors_bucket and vectors_index keys are
added to the output dict between the two steps (lines 865-866), so they survive
into the dict the fallback handler continues with. -/
def main_try_s3_vectors (args : Args) (env : Env)
    (account_id kb_name vectors_bucket vectors_index kb_role_arn
      embedding_model_arn : String) (out : Output) :
    Except (PyError × Output) (String × Output) × List CallEvent :=
  match ensure_s3_vectors_storage env vectors_bucket vectors_index args.region
      account_id 1024 with
  | (.error e, tr) => (.error (e, out), tr)
  | (.ok cfg, tr1) =>
    let out1 := { out with vectors_bucket := some vectors_bucket,
                           vectors_index := some vectors_index }
    match create_knowledge_base env.create_knowledge_base_resp env.get_kb_status
        kb_name ("Knowledge Base para " ++ args.agent_name) kb_role_arn
        embedding_model_arn cfg with
    | (.error e, tr2) => (.error (e, out1), tr1 ++ tr2)
    | (.ok kbId, tr2) => (.ok (kbId, out1), tr1 ++ tr2)

/-- The aggregate error of line 934, raised when the fallback also fails: one
Exception whose message embeds str of both causes. -/
def fallback_aggregate_error (s3v_error oss_error : PyError) : PyError :=
  .exc ("No se pudo crear KB con ningún backend. S3 Vectors error: " ++
    s3v_error.str ++ ". OpenSearch error: " ++ oss_error.str)

/-- The collection name computed at line 895. -/
def collection_name_of (agent_name : String) : String :=
  String.mk ((pyReplaceChar '_' '-' (pyLower (agent_name ++ "-kb-collection"))).toList.take 32)

/-- The index name computed at line 896. -/
def index_name_of (agent_name : String) : String :=
  pyReplaceChar '_' '-' (pyLower (agent_name ++ "-index"))

/-- Models the fallback handler of main (lines 881-936).  The guard at line 889
ends in `or True`, so the OpenSearch Serverless path runs for every primary
error: collection provisioning, index creation, then the knowledge base.  Any
error inside it is wrapped into the aggregate error carrying both causes. -/
def main_fallback_opensearch (args : Args) (env : Env)
    (kb_name kb_role_arn embedding_model_arn : String) (s3v_error : PyError)
    (out : Output) : Except (PyError × Output) (String × Output) × List CallEvent :=
  match ensure_opensearch_serverless_collection env.ensure_collection_resp
      (collection_name_of args.agent_name) kb_role_arn with
  | (.error e, tr) => (.error (fallback_aggregate_error s3v_error e, out), tr)
  | (.ok osCfg, tr1) =>
    match create_opensearch_index env.create_os_index_resp
        (index_name_of args.agent_name) with
    | (.error e, tr2) =>
      (.error (fallback_aggregate_error s3v_error e, out), tr1 ++ tr2)
    | (.ok _, tr2) =>
      match create_knowledge_base_with_opensearch env.create_kb_oss_resp
          env.get_kb_oss_status kb_name ("Knowledge Base para " ++ args.agent_name)
          kb_role_arn embedding_model_arn osCfg (index_name_of args.agent_name) with
      | (.error e, tr3) =>
        (.error (fallback_aggregate_error s3v_error e, out), tr1 ++ tr2 ++ tr3)
      | (.ok kbId, tr3) =>
        (.ok (kbId,
          { out with opensearch_collection := some (collection_name_of args.agent_name),
                     opensearch_index := some (index_name_of args.agent_name) }),
         tr1 ++ tr2 ++ tr3)

/-- Models lines 938-951: record the created knowledge base in the output dict,
then create its data source. -/
def main_created_finish (args : Args) (env : Env) (kb_id storage_type : String)
    (out : Output) (tr : List CallEvent) :
    Except (PyError × Output) (String × String × Output) × List CallEvent :=
  let out1 := { out with knowledge_base_id := some kb_id, status := "created",
                         storage_type := some storage_type }
  match create_data_source env.create_data_source_resp kb_id args.s3_uri
      (args.agent_name ++ "-datasource") args.max_tokens args.overlap_percentage with
  | (.error e, tr2) => (.error (e, out1), tr ++ tr2)
  | (.ok dsId, tr2) =>
    (.ok (kb_id, dsId, { out1 with data_source_id := some dsId }), tr ++ tr2)

/-- Models the branch of main for an absent knowledge base (lines 832-951): the
role resolution, the primary S3 Vectors attempt, the OpenSearch Serverless
fallback on any primary error, and the data source creation. -/
def main_created_branch (args : Args) (env : Env)
    (account_id kb_name vectors_bucket vectors_index : String) (out : Output) :
    Except (PyError × Output) (String × String × Output) × List CallEvent :=
  match main_try_s3_vectors args env account_id kb_name vectors_bucket
      vectors_index (resolve_kb_role_arn env.kb_role_arn_env)
      (kb_embedding_model_arn args.region) out with
  | (.ok (kbId, out1), tr1) =>
    main_created_finish args env kbId "S3_VECTORS" out1 tr1
  | (.error (s3v_e, out1), tr1) =>
    match main_fallback_opensearch args env kb_name
        (resolve_kb_role_arn env.kb_role_arn_env)
        (kb_embedding_model_arn args.region) s3v_e out1 with
    | (.error (e, out2), tr2) => (.error (e, out2), tr1 ++ tr2)
    | (.ok (kbId, out2), tr2) =>
      main_created_finish args env kbId "OPENSEARCH_SERVERLESS" out2 (tr1 ++ tr2)

/-- Models the body of the try block of main (lines 791-999): caller identity,
name computation, the probe for an existing knowledge base, the existing or
created branch, then ingestion and association. -/
def main_body (args : Args) (env : Env) (out : Output) :
    Except (PyError × Output) Output × List CallEvent :=
  match env.get_caller_identity with
  | .error e => (.error (e, out), [.getCallerIdentity])
  | .ok account_id =>
    match get_existing_knowledge_base env.list_knowledge_bases
        (args.agent_name ++ "-kb") with
    | (.error e, tr1) => (.error (e, out), .getCallerIdentity :: tr1)
    | (.ok (some kb), tr1) =>
      match env.list_data_sources kb.knowledgeBaseId with
      | .error e =>
        (.error (e, { out with knowledge_base_id := some kb.knowledgeBaseId,
                               status := "existing" }),
         .getCallerIdentity :: (tr1 ++ [.listDataSources kb.knowledgeBaseId]))
      | .ok [] =>
        match create_data_source env.create_data_source_resp kb.knowledgeBaseId
            args.s3_uri (args.agent_name ++ "-datasource") args.max_tokens
            args.overlap_percentage with
        | (.error e, tr2) =>
          (.error (e, { out with knowledge_base_id := some kb.knowledgeBaseId,
                                 status := "existing" }),
           .getCallerIdentity ::
             (tr1 ++ [.listDataSources kb.knowledgeBaseId] ++ tr2))
        | (.ok dsId, tr2) =>
          match main_ingestion_and_assoc args env
              { out with knowledge_base_id := some kb.knowledgeBaseId,
                         status := "existing", data_source_id := some dsId }
              kb.knowledgeBaseId dsId with
          | (r, tr3) =>
            (r, .getCallerIdentity ::
              (tr1 ++ [.listDataSources kb.knowledgeBaseId] ++ tr2 ++ tr3))
      | .ok (d :: _) =>
        match main_ingestion_and_assoc args env
            { out with knowledge_base_id := some kb.knowledgeBaseId,
                       status := "existing", data_source_id := some d.dataSourceId }
            kb.knowledgeBaseId d.dataSourceId with
        | (r, tr3) =>
          (r, .getCallerIdentity ::
            (tr1 ++ [.listDataSources kb.knowledgeBaseId] ++ tr3))
    | (.ok none, tr1) =>
      match main_created_branch args env account_id (args.agent_name ++ "-kb")
          (args.agent_name ++ "-vectors-" ++ account_id)
          (args.agent_name ++ "-index") out with
      | (.error (e, out1), tr2) =>
        (.error (e, out1), .getCallerIdentity :: (tr1 ++ tr2))
      | (.ok (kbId, dsId, out1), tr2) =>
        match main_ingestion_and_assoc args env out1 kbId dsId with
        | (r, tr3) => (r, .getCallerIdentity :: (tr1 ++ tr2 ++ tr3))

instance {α β : Type} [DecidableEq α] [DecidableEq β] : DecidableEq (Except α β) :=
  fun x y =>
    match x, y with
    | .ok a, .ok b => decidable_of_iff (a = b) (by simp)
    | .error a, .error b => decidable_of_iff (a = b) (by simp)
    | .ok _, .error _ => isFalse (by simp)
    | .error _, .ok _ => isFalse (by simp)

/-- The observable result of one run of main. -/
structure MainResult where
  outcome : Except PyError Unit
  finalOutput : Output
  written : Option Output
  trace : List CallEvent
  deriving DecidableEq, Repr

/-- Models main (lines 749-1027).  When --enable is not the string true (case
insensitively) the whole try block is skipped and the initial record is written.
Otherwise the try block runs; an exception sets status to error, records str(e)
under the error key and re-raises, so the write at lines 1007-1013 (which sits
after the try statement, not in a finally) never happens; a run without an
exception writes the final record. -/
def mainRun (args : Args) (env : Env) : MainResult :=
  let out0 := initial_output args.enable
  if pyLower args.enable ≠ "true" then
    { outcome := .ok (), finalOutput := out0, written := some out0, trace := [] }
  else
    match main_body args env out0 with
    | (.error (e, out1), tr) =>
      let out2 := { out1 with status := "error", error := some e.str }
      { outcome := .error e, finalOutput := out2, written := none, trace := tr }
    | (.ok out1, tr) =>
      { outcome := .ok (), finalOutput := out1, written := some out1, trace := tr }

/-! ### Predicates used in the claim statements -/

/-- The string p occurs as a contiguous substring of s. -/
def strContains (p s : String) : Prop := ∃ a b, s = a ++ p ++ b

/-- Executable substring check, used to refute containment on concrete data. -/
def strContainsB (p s : String) : Bool :=
  (List.range (s.length + 1)).any fun i => p.toList.isPrefixOf (s.toList.drop i)

/-- Every create_knowledge_base call recorded in the trace used role arn r. -/
def role_bound (r : String) (tr : List CallEvent) : Prop :=
  ∀ n ro st, CallEvent.createKnowledgeBase n ro st ∈ tr → ro = r

/-- No create_data_source call appears in the trace. -/
def no_create_data_source (tr : List CallEvent) : Prop :=
  ∀ kbId name uri mt ov, CallEvent.createDataSource kbId name uri mt ov ∉ tr

/-- No associate_agent_knowledge_base call appears in the trace. -/
def no_associate_call (tr : List CallEvent) : Prop :=
  ∀ agentId kbId, CallEvent.associateAgentKnowledgeBase agentId kbId ∉ tr

/-- Whatever record the run wrote carries overall status existing and the given
data source id. -/
def result_records_existing (res : MainResult) (dsId : String) : Prop :=
  ∀ o, res.written = some o → o.status = "existing" ∧ o.data_source_id = some dsId

/-- Marks the single provisioning call of the OpenSearch Serverless fallback. -/
def is_ensure_collection_event : CallEvent → Bool
  | .ensureOpensearchCollection _ _ => true
  | _ => false

/-- Marks create_knowledge_base calls. -/
def is_create_kb_ev : CallEvent → Bool
  | .createKnowledgeBase _ _ _ => true
  | _ => false

/-- Marks create_data_source calls. -/
def is_create_ds_ev : CallEvent → Bool
  | .createDataSource _ _ _ _ _ => true
  | _ => false

/-- Marks associate_agent_knowledge_base calls. -/
def is_associate_ev : CallEvent → Bool
  | .associateAgentKnowledgeBase _ _ => true
  | _ => false

/-- The events ensure_s3_vectors_storage can issue. -/
def storage_ev (b i : String) (d : Nat) (ev : CallEvent) : Prop :=
  ev = CallEvent.getVectorBucket b ∨ ev = CallEvent.createVectorBucket b ∨
  ev = CallEvent.getIndex b i ∨ ev = CallEvent.deleteIndex b i ∨
  ev = CallEvent.createIndex b i d

/-- The events the ingestion-and-association tail of main can issue. -/
def ing_assoc_ev (kb ds : String) (ev : CallEvent) : Prop :=
  ev = CallEvent.startIngestionJob kb ds ∨ (∃ j, ev = CallEvent.getIngestionJob j) ∨
  ev = CallEvent.listAgents ∨ ∃ a k, ev = CallEvent.associateAgentKnowledgeBase a k

/-- The output dict after the existing-knowledge-base branch of main recorded
the found base and its first data source (lines 809-821). -/
def existing_out (out : Output) (kb : KBSummary) (d : DSSummary) : Output :=
  { out with knowledge_base_id := some kb.knowledgeBaseId, status := "existing",
             data_source_id := some d.dataSourceId }

/-- The output dict carried by the result of the created branch, whether it
ended in a raise (the dict the outer handler sees) or in success. -/
def carried_output : Except (PyError × Output) (String × String × Output) → Output
  | .error (_, o) => o
  | .ok (_, _, o) => o

/-- The contract of the fallback block of main (lines 881-936), relative to a
primary failure s3v_e that left the output dict at out1: the fallback
provisioning call happens exactly once; a successful fallback tags the run with
the OpenSearch Serverless storage type; a failed fallback aborts the branch
with the aggregate error embedding both causes. -/
def created_branch_fallback_contract (args : Args) (env : Env)
    (account_id kb_name vectors_bucket vectors_index : String) (out : Output)
    (s3v_e : PyError) (out1 : Output) : Prop :=
  (main_created_branch args env account_id kb_name vectors_bucket vectors_index
      out).2.countP is_ensure_collection_event = 1 ∧
  (∀ kbId out2,
    (main_fallback_opensearch args env kb_name
        (resolve_kb_role_arn env.kb_role_arn_env) (kb_embedding_model_arn args.region)
        s3v_e out1).1 = .ok (kbId, out2) →
    (carried_output (main_created_branch args env account_id kb_name
        vectors_bucket vectors_index out).1).storage_type =
      some "OPENSEARCH_SERVERLESS") ∧
  (∀ eA out2,
    (main_fallback_opensearch args env kb_name
        (resolve_kb_role_arn env.kb_role_arn_env) (kb_embedding_model_arn args.region)
        s3v_e out1).1 = .error (eA, out2) →
    (main_created_branch args env account_id kb_name vectors_bucket vectors_index
        out).1 = .error (eA, out2) ∧
    ∃ e2, eA = fallback_aggregate_error s3v_e e2 ∧
      strContains (PyError.str s3v_e) (PyError.str eA) ∧
      strContains (PyError.str e2) (PyError.str eA))

/-- The contract of the probes (claim C2 amended): the vector-bucket probe maps
not-found shapes to creation and propagates every other failure, while the
knowledge-base existence probe swallows every ClientError into None. -/
def probe_contract : Prop :=
  (∀ resp kb_name code m, resp = Except.error (PyError.clientError code m) →
    (get_existing_knowledge_base resp kb_name).1 = .ok none) ∧
  (∀ g c b code m, code ∉ not_found_bucket_codes →
    g = Except.error (PyError.clientError code m) →
    (ensure_vector_bucket g c b).1 = .error (.clientError code m) ∧
    CallEvent.createVectorBucket b ∉ (ensure_vector_bucket g c b).2) ∧
  (∀ g c b m, g = Except.error (PyError.notFoundException m) →
    CallEvent.createVectorBucket b ∈ (ensure_vector_bucket g c b).2) ∧
  (∀ g c b code m, code ∈ not_found_bucket_codes →
    g = Except.error (PyError.clientError code m) →
    CallEvent.createVectorBucket b ∈ (ensure_vector_bucket g c b).2) ∧
  (∀ g c b e, g = Except.error (PyError.exc e) →
    (ensure_vector_bucket g c b).1 = .error (.exc e))

/-! ### Concrete runs used by witnesses and counterexamples -/

/-- The statistics block of the completed concrete job. -/
def statsComplete : IngestionStatistics :=
  { numberOfDocumentsScanned := 5, numberOfDocumentsIndexed := 5,
    numberOfDocumentsFailed := 0, numberOfNewChunksIndexed := 10,
    numberOfModifiedChunksIndexed := 0, numberOfChunksDeleted := 0 }

/-- A completed ingestion job payload. -/
def jobComplete : IngestionJob :=
  { ingestionJobId := "job-1", status := "COMPLETE",
    statistics := some statsComplete, failureReasons := [] }

/-- A failed ingestion job payload with the failure reasons of scenario D. -/
def jobFailedParse : IngestionJob :=
  { ingestionJobId := "job-1", status := "FAILED", statistics := none,
    failureReasons := ["parse error"] }

/-- An in-progress ingestion job payload. -/
def jobInProgress : IngestionJob :=
  { ingestionJobId := "job-1", status := "IN_PROGRESS", statistics := none,
    failureReasons := [] }

/-- A starting ingestion job payload. -/
def jobStarting : IngestionJob :=
  { ingestionJobId := "job-1", status := "STARTING", statistics := none,
    failureReasons := [] }

/-- A status function that always reports IN_PROGRESS. -/
def pollInProgress : Nat → Except PyError IngestionJob := fun _ => .ok jobInProgress

/-- A status function that always reports STARTING. -/
def pollStarting : Nat → Except PyError IngestionJob := fun _ => .ok jobStarting

/-- A status function that always reports FAILED. -/
def pollFailed : Nat → Except PyError IngestionJob := fun _ => .ok jobFailedParse

/-- A knowledge-base status function that always reports CREATING. -/
def pollCreating : Nat → Except PyError String := fun _ => .ok "CREATING"

/-- A knowledge-base status function that always reports FAILED. -/
def pollFailedKB : Nat → Except PyError String := fun _ => .ok "FAILED"

/-- A fixed storage configuration for concrete runs. -/
def cfg0 : S3VectorsConfig :=
  { vectorBucketArn := "arn:aws:s3vectors:us-east-1:123456789012:vector-bucket/b",
    indexArn := "arn:aws:s3vectors:us-east-1:123456789012:vector-bucket/b/index/i",
    indexName := "i" }

/-- Benign default arguments: agent, enabled, ingestion timeout one minute. -/
def argsBase : Args :=
  { agent_name := "agent", s3_uri := "s3://bucket/docs/", region := "us-east-1",
    enable := "true", max_tokens := 1024, overlap_percentage := 20,
    ingestion_timeout := 1, skip_ingestion := false }

/-- A fixed OpenSearch Serverless configuration for concrete runs. -/
def osCfg0 : OpenSearchConfig :=
  { collectionArn := "arn:aws:aoss:collection/c",
    collectionEndpoint := "https://c.us-east-1.aoss.amazonaws.com" }

/-- Benign default environment: no existing knowledge base, primary storage
provisioning succeeds, ingestion completes, no agent to associate. -/
def envBase : Env :=
  { kb_role_arn_env := none
  , get_caller_identity := .ok "123456789012"
  , list_knowledge_bases := .ok []
  , list_data_sources := fun _ => .ok []
  , create_data_source_resp := .ok "ds-new"
  , get_vector_bucket := .ok ()
  , create_vector_bucket := .ok ()
  , get_index := .error (.notFoundException "index not found")
  , create_index := .ok ()
  , create_knowledge_base_resp := .ok "kb-new"
  , get_kb_status := fun _ => .ok "ACTIVE"
  , ensure_collection_resp := .ok osCfg0
  , create_os_index_resp := .ok ()
  , create_kb_oss_resp := .ok "kb-oss"
  , get_kb_oss_status := fun _ => .ok "ACTIVE"
  , start_ingestion_job_resp := .ok "job-1"
  , get_ingestion_job := fun _ => .ok jobComplete
  , list_agents := .ok []
  , associate_resp := .ok () }

/-- Environment with an existing knowledge base that has one data source and an
ingestion job that fails with a parse error. -/
def envExistingFailedIngestion : Env :=
  { envBase with
      list_knowledge_bases := .ok [{ name := "agent-kb", knowledgeBaseId := "kb-1" }]
    , list_data_sources := fun _ => .ok [{ dataSourceId := "ds-1" }]
    , get_ingestion_job := fun _ => .ok jobFailedParse }

/-- Environment with an existing knowledge base that has one data source and a
successful ingestion. -/
def envExistingOk : Env :=
  { envBase with
      list_knowledge_bases := .ok [{ name := "agent-kb", knowledgeBaseId := "kb-1" }]
    , list_data_sources := fun _ => .ok [{ dataSourceId := "ds-1" }] }

/-- Environment whose primary S3 Vectors provisioning fails at the bucket probe
with a generic exception, while the fallback succeeds. -/
def envPrimaryDown : Env :=
  { envBase with get_vector_bucket := .error (.exc "s3 vectors down") }

/-- Environment where both the primary provisioning and the fallback collection
provisioning fail. -/
def envBothDown : Env :=
  { envPrimaryDown with ensure_collection_resp := .error (.exc "aoss down") }

/-- Arguments with knowledge-base creation disabled. -/
def argsDisabled : Args := { argsBase with enable := "False" }

/-- Arguments that skip ingestion. -/
def argsSkipIngestion : Args := { argsBase with skip_ingestion := true }

/-! ### Lemmas about the ingestion poll loop -/

theorem ingestion_wait_loop_timeout (g : Nat → Except PyError IngestionJob)
    (t : Nat) :
    ∀ n i, (∀ j, j < n → ∃ jb, g (i + j) = .ok jb ∧
        jb.status ≠ "COMPLETE" ∧ jb.status ≠ "FAILED") →
    (ingestion_wait_loop g t i n).1 =
      .error (.timeoutError
        ("Ingestion job timeout after " ++ toString t ++ " minutes")) := by
  intro n
  induction n with
  | zero => intro i _; rfl
  | succ n ih =>
    intro i h
    obtain ⟨jb, hok, hc, hf⟩ := h 0 (Nat.succ_pos n)
    rw [Nat.add_zero] at hok
    unfold ingestion_wait_loop
    rw [hok]
    simp only [if_neg hc, if_neg hf]
    rcases hrec : ingestion_wait_loop g t (i + 1) n with ⟨r, tr⟩
    have ih2 := ih (i + 1) ?_
    · rw [hrec] at ih2; exact ih2
    · intro j hj
      have := h (j + 1) (by omega)
      rwa [show i + (j + 1) = i + 1 + j by omega] at this

theorem ingestion_wait_loop_failed (g : Nat → Except PyError IngestionJob)
    (t : Nat) :
    ∀ k n i, k < n →
    (∀ j, j < k → ∃ jb, g (i + j) = .ok jb ∧
        jb.status ≠ "COMPLETE" ∧ jb.status ≠ "FAILED") →
    ∀ jb, g (i + k) = .ok jb → jb.status = "FAILED" →
    (ingestion_wait_loop g t i n).1 =
      .error (.exc ("Ingestion job failed: " ++ pyStrList jb.failureReasons)) := by
  intro k
  induction k with
  | zero =>
    intro n i hk h jb hok hf
    obtain ⟨n', rfl⟩ : ∃ n', n = n' + 1 := ⟨n - 1, by omega⟩
    rw [Nat.add_zero] at hok
    have hc : ¬jb.status = "COMPLETE" := by rw [hf]; decide
    unfold ingestion_wait_loop
    rw [hok]
    simp only [if_neg hc, if_pos hf]
  | succ k ihk =>
    intro n i hk h jb hok hf
    obtain ⟨n', rfl⟩ : ∃ n', n = n' + 1 := ⟨n - 1, by omega⟩
    obtain ⟨jb0, h0ok, h0c, h0f⟩ := h 0 (Nat.succ_pos k)
    rw [Nat.add_zero] at h0ok
    unfold ingestion_wait_loop
    rw [h0ok]
    simp only [if_neg h0c, if_neg h0f]
    rcases hrec : ingestion_wait_loop g t (i + 1) n' with ⟨r, tr⟩
    have ih2 := ihk n' (i + 1) (by omega) ?_ jb ?_ hf
    · rw [hrec] at ih2; exact ih2
    · intro j hj
      have := h (j + 1) (by omega)
      rwa [show i + (j + 1) = i + 1 + j by omega] at this
    · rwa [show i + 1 + k = i + (k + 1) by omega]

theorem ingestion_wait_loop_trace (g : Nat → Except PyError IngestionJob)
    (t : Nat) :
    ∀ n i ev, ev ∈ (ingestion_wait_loop g t i n).2 →
      ∃ j, ev = CallEvent.getIngestionJob j := by
  intro n
  induction n with
  | zero => intro i ev h; simp [ingestion_wait_loop] at h
  | succ n ih =>
    intro i ev h
    unfold ingestion_wait_loop at h
    split at h
    · simp at h; exact ⟨i, h⟩
    · split at h
      · simp at h; exact ⟨i, h⟩
      · split at h
        · simp at h; exact ⟨i, h⟩
        · split at h
          next r tr hrec =>
            simp only [List.mem_cons] at h
            rcases h with h1 | h2
            · exact ⟨i, h1⟩
            · exact ih (i + 1) ev (by rw [hrec]; exact h2)

/-! ### Lemmas about the knowledge-base creation poll loop -/

theorem kb_wait_loop_nonterminal (gs : Nat → Except PyError String) :
    ∀ n i, (∀ j, j < n → ∃ s, gs (i + j) = .ok s ∧
        s ≠ "ACTIVE" ∧ s ≠ "FAILED") →
    (kb_wait_loop gs i n).1 = .ok () := by
  intro n
  induction n with
  | zero => intro i _; rfl
  | succ n ih =>
    intro i h
    obtain ⟨s, hok, ha, hf⟩ := h 0 (Nat.succ_pos n)
    rw [Nat.add_zero] at hok
    unfold kb_wait_loop
    rw [hok]
    simp only [if_neg ha, if_neg hf]
    rcases hrec : kb_wait_loop gs (i + 1) n with ⟨r, tr⟩
    have ih2 := ih (i + 1) ?_
    · rw [hrec] at ih2; exact ih2
    · intro j hj
      have := h (j + 1) (by omega)
      rwa [show i + (j + 1) = i + 1 + j by omega] at this

theorem kb_wait_loop_failed (gs : Nat → Except PyError String) :
    ∀ k n i, k < n →
    (∀ j, j < k → ∃ s, gs (i + j) = .ok s ∧ s ≠ "ACTIVE" ∧ s ≠ "FAILED") →
    gs (i + k) = .ok "FAILED" →
    (kb_wait_loop gs i n).1 =
      .error (.exc ("Knowledge base creation failed: " ++ "FAILED")) := by
  intro k
  induction k with
  | zero =>
    intro n i hk h hok
    obtain ⟨n', rfl⟩ : ∃ n', n = n' + 1 := ⟨n - 1, by omega⟩
    rw [Nat.add_zero] at hok
    unfold kb_wait_loop
    rw [hok]
    simp
  | succ k ihk =>
    intro n i hk h hok
    obtain ⟨n', rfl⟩ : ∃ n', n = n' + 1 := ⟨n - 1, by omega⟩
    obtain ⟨s0, h0ok, h0a, h0f⟩ := h 0 (Nat.succ_pos k)
    rw [Nat.add_zero] at h0ok
    unfold kb_wait_loop
    rw [h0ok]
    simp only [if_neg h0a, if_neg h0f]
    rcases hrec : kb_wait_loop gs (i + 1) n' with ⟨r, tr⟩
    have ih2 := ihk n' (i + 1) (by omega) ?_ ?_
    · rw [hrec] at ih2; exact ih2
    · intro j hj
      have := h (j + 1) (by omega)
      rwa [show i + (j + 1) = i + 1 + j by omega] at this
    · rwa [show i + 1 + k = i + (k + 1) by omega]

theorem kb_wait_loop_trace (gs : Nat → Except PyError String) :
    ∀ n i ev, ev ∈ (kb_wait_loop gs i n).2 →
      ∃ j, ev = CallEvent.getKnowledgeBase j := by
  intro n
  induction n with
  | zero => intro i ev h; simp [kb_wait_loop] at h
  | succ n ih =>
    intro i ev h
    unfold kb_wait_loop at h
    split at h
    · simp at h; exact ⟨i, h⟩
    · split at h
      · simp at h; exact ⟨i, h⟩
      · split at h
        · simp at h; exact ⟨i, h⟩
        · split at h
          next r tr hrec =>
            simp only [List.mem_cons] at h
            rcases h with h1 | h2
            · exact ⟨i, h1⟩
            · exact ih (i + 1) ev (by rw [hrec]; exact h2)

/-! ### Claims C4, C5, C6: the poll primitives -/

/-- C5 (amended): when the status function never reports COMPLETE nor FAILED
within the budget, wait_for_ingestion_job raises TimeoutError once
timeout_minutes * 6 polls have elapsed; the message of that error states only
the timeout in minutes - it is the same for every status function and does not
include the last observed state. -/
theorem claim_c5_timeout_without_state (g : Nat → Except PyError IngestionJob)
    (t : Nat)
    (h : ∀ j, j < t * 6 → ∃ jb, g j = .ok jb ∧
        jb.status ≠ "COMPLETE" ∧ jb.status ≠ "FAILED") :
    (wait_for_ingestion_job g t).1 =
      .error (.timeoutError
        ("Ingestion job timeout after " ++ toString t ++ " minutes")) := by
  unfold wait_for_ingestion_job
  apply ingestion_wait_loop_timeout
  intro j hj
  rw [Nat.zero_add]
  exact h j hj

/-- Witness for C5 at a concrete run: one minute of polls that all report
IN_PROGRESS. -/
theorem claim_c5_witness :
    (wait_for_ingestion_job pollInProgress 1).1 =
      .error (.timeoutError
        ("Ingestion job timeout after " ++ toString 1 ++ " minutes")) :=
  claim_c5_timeout_without_state pollInProgress 1
    (fun j hj => ⟨jobInProgress, rfl, by decide, by decide⟩)

/-- C5 counterexample: two poll histories whose (never-changing) observed states
differ - IN_PROGRESS versus STARTING - produce the identical TimeoutError, and
neither state name occurs in its message, so the raised error does not report
the last observed state as the claim says. -/
theorem claim_c5_counterexample :
    (wait_for_ingestion_job pollInProgress 1).1 =
      .error (.timeoutError "Ingestion job timeout after 1 minutes") ∧
    (wait_for_ingestion_job pollStarting 1).1 =
      (wait_for_ingestion_job pollInProgress 1).1 ∧
    strContainsB "IN_PROGRESS" "Ingestion job timeout after 1 minutes" = false ∧
    strContainsB "STARTING" "Ingestion job timeout after 1 minutes" = false := by
  refine ⟨?_, ?_, ?_, ?_⟩ <;> decide

/-- C6 (amended): for every timeout of at least one minute, a status function
that always reports the terminal failure state FAILED makes
wait_for_ingestion_job raise the terminal-failure error carrying the
failureReasons observed on the first poll, and never TimeoutError.  The
restriction to positive timeouts is forced by the counterexample: with a
zero-minute timeout the loop performs no poll and raises TimeoutError. -/
theorem claim_c6_terminal_failure (g : Nat → Except PyError IngestionJob)
    (t : Nat) (ht : 1 ≤ t)
    (h : ∀ i, ∃ jb, g i = .ok jb ∧ jb.status = "FAILED") :
    ∃ jb, g 0 = .ok jb ∧
      (wait_for_ingestion_job g t).1 =
        .error (.exc ("Ingestion job failed: " ++ pyStrList jb.failureReasons)) ∧
      ∀ m, (wait_for_ingestion_job g t).1 ≠ .error (.timeoutError m) := by
  obtain ⟨jb, hok, hf⟩ := h 0
  have hmain : (wait_for_ingestion_job g t).1 =
      .error (.exc ("Ingestion job failed: " ++ pyStrList jb.failureReasons)) := by
    unfold wait_for_ingestion_job
    exact ingestion_wait_loop_failed g t 0 (t * 6) 0 (by omega)
      (fun j hj => absurd hj (by omega)) jb (by rw [Nat.add_zero]; exact hok) hf
  refine ⟨jb, hok, hmain, ?_⟩
  intro m heq
  rw [hmain] at heq
  simp at heq

/-- Witness for C6 at a concrete run: an always-FAILED job with a one-minute
timeout raises the failure error embedding the parse-error reason. -/
theorem claim_c6_witness :
    (wait_for_ingestion_job pollFailed 1).1 =
      .error (.exc ("Ingestion job failed: " ++ pyStrList ["parse error"])) := by
  obtain ⟨jb, hok, hmain, -⟩ :=
    claim_c6_terminal_failure pollFailed 1 (by decide)
      (fun i => ⟨jobFailedParse, rfl, rfl⟩)
  have hjb : jobFailedParse = jb := Except.ok.inj hok
  rw [← hjb] at hmain
  exact hmain

/-- C6 counterexample: with a zero-minute timeout the loop performs no poll, so
even an always-FAILED status function yields TimeoutError - refuting the
"never TimeoutError, regardless of timeout length" part of the claim. -/
theorem claim_c6_counterexample :
    (wait_for_ingestion_job pollFailed 0).1 =
      .error (.timeoutError "Ingestion job timeout after 0 minutes") := by
  decide

/-- C4 (amended): a freshly created knowledge base is polled for ACTIVE with
terminal failure state FAILED, 30 rounds of 10 seconds - about 5 minutes.
Observing FAILED raises the descriptive failure, as the claim states; but when
the budget is exhausted without reaching ACTIVE, create_knowledge_base logs a
warning and returns the created record normally instead of raising
TimeoutError (the counterexample refutes that half of the claim). -/
theorem claim_c4_kb_poll (cr : Except PyError String)
    (gs : Nat → Except PyError String) (kb_name d r e : String)
    (cfg : S3VectorsConfig) (kbId : String) (hcr : cr = .ok kbId) :
    ((∃ k, k < 30 ∧
        (∀ j, j < k → ∃ s, gs j = .ok s ∧ s ≠ "ACTIVE" ∧ s ≠ "FAILED") ∧
        gs k = .ok "FAILED") →
      (create_knowledge_base cr gs kb_name d r e cfg).1 =
        .error (.exc ("Knowledge base creation failed: " ++ "FAILED"))) ∧
    ((∀ j, j < 30 → ∃ s, gs j = .ok s ∧ s ≠ "ACTIVE" ∧ s ≠ "FAILED") →
      (create_knowledge_base cr gs kb_name d r e cfg).1 = .ok kbId) := by
  subst hcr
  constructor
  · rintro ⟨k, hk, hpre, hfk⟩
    have hfail := kb_wait_loop_failed gs k 30 0 hk
      (fun j hj => by simpa using hpre j hj) (by simpa using hfk)
    unfold create_knowledge_base
    rcases hrec : kb_wait_loop gs 0 30 with ⟨wr, wtr⟩
    rw [hrec] at hfail
    have hw : wr = .error (.exc ("Knowledge base creation failed: " ++ "FAILED")) :=
      hfail
    subst hw
    rfl
  · intro h
    have hok := kb_wait_loop_nonterminal gs 30 0
      (fun j hj => by simpa using h j hj)
    unfold create_knowledge_base
    rcases hrec : kb_wait_loop gs 0 30 with ⟨wr, wtr⟩
    rw [hrec] at hok
    have hw : wr = .ok () := hok
    subst hw
    rfl

/-- Witness for C4 at a concrete run: creation succeeds and the first poll
reports FAILED, so the descriptive failure is raised. -/
theorem claim_c4_witness :
    (create_knowledge_base (.ok "kb-1") pollFailedKB "agent-kb" "d" "r" "e"
        cfg0).1 =
      .error (.exc ("Knowledge base creation failed: " ++ "FAILED")) :=
  (claim_c4_kb_poll (.ok "kb-1") pollFailedKB "agent-kb" "d" "r" "e" cfg0
      "kb-1" rfl).1
    ⟨0, by omega, fun j hj => absurd hj (by omega), rfl⟩

/-- C4 counterexample: a knowledge base that stays CREATING for the whole
budget makes create_knowledge_base return the created record normally - no
TimeoutError is raised, refuting the timeout half of the claim. -/
theorem claim_c4_counterexample :
    (create_knowledge_base (.ok "kb-1") pollCreating "agent-kb" "d" "r" "e"
        cfg0).1 = .ok "kb-1" := by
  decide

/-! ### Claim C2: probe error handling -/

/-- C2 (amended): the vector-bucket probe maps a not-found-shaped failure
(NotFoundException, or a ClientError whose code is in the known list) to the
creation path and propagates every other failure unchanged; the knowledge-base
existence probe, however, swallows every ClientError and reports the base as
nonexistent instead of re-raising - the counterexample refutes the original
claim on that probe. -/
theorem claim_c2_probe_contract : probe_contract := by
  refine ⟨?_, ?_, ?_, ?_, ?_⟩
  · rintro resp kb_name code m rfl
    rfl
  · rintro g c b code m hcode rfl
    refine ⟨?_, ?_⟩
    · simp [ensure_vector_bucket, hcode]
    · simp [ensure_vector_bucket, hcode]
  · rintro g c b m rfl
    cases c <;> simp [ensure_vector_bucket]
  · rintro g c b code m hcode rfl
    cases c <;> simp [ensure_vector_bucket, hcode]
  · rintro g c b e rfl
    rfl

/-- C2 counterexample: a non-not-found client error (AccessDeniedException)
during the knowledge-base existence probe is swallowed - the probe returns
None, treating the base as nonexistent, instead of re-raising it as the claim
states. -/
theorem claim_c2_counterexample :
    (get_existing_knowledge_base
        (.error (.clientError "AccessDeniedException" "access denied"))
        "agent-kb").1 = .ok none := by
  rfl

/-! ### Claim C8: no output on error -/

/-- C8: the output record is written exactly when the run raised no exception.
An error escaping the try body is recorded in the in-memory dict - status
error plus the stringified cause - and re-raised before the output-writing
step, which sits after the try statement and not in a finally, so the file is
never written on such runs. -/
theorem claim_c8_no_write_on_error (args : Args) (env : Env) :
    ((mainRun args env).written = none ↔
      ∃ e, (mainRun args env).outcome = .error e) ∧
    ∀ e, (mainRun args env).outcome = .error e →
      (mainRun args env).finalOutput.status = "error" ∧
      (mainRun args env).finalOutput.error = some (PyError.str e) := by
  unfold mainRun
  by_cases hen : pyLower args.enable ≠ "true"
  · rw [if_pos hen]
    refine ⟨⟨fun h => by simp at h, ?_⟩, fun e he => by simp at he⟩
    rintro ⟨e, he⟩
    simp at he
  · rw [if_neg hen]
    rcases hbody : main_body args env (initial_output args.enable) with ⟨r, tr⟩
    cases r with
    | error p =>
      rcases p with ⟨e0, out1⟩
      refine ⟨⟨fun _ => ⟨e0, rfl⟩, fun _ => rfl⟩, ?_⟩
      intro e he
      have he0 : (Except.error e0 : Except PyError Unit) = .error e := he
      have : e0 = e := by simpa using he0
      subst this
      exact ⟨rfl, rfl⟩
    | ok out1 =>
      refine ⟨⟨fun h => by simp at h, ?_⟩, fun e he => by simp at he⟩
      rintro ⟨e, he⟩
      simp at he

/-- Witness for C8 at a concrete failing run: both storage backends are down,
the aggregate error is raised, and no record is written. -/
theorem claim_c8_witness :
    (mainRun argsBase envBothDown).written = none :=
  ((claim_c8_no_write_on_error argsBase envBothDown).1).mpr
    ⟨fallback_aggregate_error (.exc "s3 vectors down") (.exc "aoss down"),
     by decide⟩

/-! ### Claim C10: disabled runs touch nothing -/

/-- C10: when --enable is not case-insensitively true, the run issues no client
call at all and writes the untouched initial record: overall status skipped,
ingestion status skipped, and no knowledge-base or data-source id. -/
theorem claim_c10_disabled_run (args : Args) (env : Env)
    (h : pyLower args.enable ≠ "true") :
    (mainRun args env).trace = [] ∧
    (mainRun args env).written = some (initial_output args.enable) ∧
    (initial_output args.enable).status = "skipped" ∧
    (initial_output args.enable).ingestion.status = "skipped" ∧
    (initial_output args.enable).knowledge_base_id = none ∧
    (initial_output args.enable).data_source_id = none := by
  unfold mainRun
  rw [if_pos h]
  exact ⟨rfl, rfl, rfl, rfl, rfl, rfl⟩

/-- Witness for C10 at a concrete disabled run. -/
theorem claim_c10_witness :
    (mainRun argsDisabled envBase).trace = [] ∧
    (mainRun argsDisabled envBase).written =
      some (initial_output argsDisabled.enable) ∧
    (initial_output argsDisabled.enable).status = "skipped" ∧
    (initial_output argsDisabled.enable).ingestion.status = "skipped" ∧
    (initial_output argsDisabled.enable).knowledge_base_id = none ∧
    (initial_output argsDisabled.enable).data_source_id = none :=
  claim_c10_disabled_run argsDisabled envBase (by decide)

/-! ### Trace bookkeeping helpers -/

theorem countP_zero_of_shape {p : CallEvent → Bool} {tr : List CallEvent}
    (h : ∀ ev ∈ tr, p ev = false) : tr.countP p = 0 := by
  rw [List.countP_eq_zero]
  intro a ha
  simp [h a ha]

theorem role_bound_append {r : String} {t1 t2 : List CallEvent}
    (h1 : role_bound r t1) (h2 : role_bound r t2) : role_bound r (t1 ++ t2) := by
  intro n ro st h
  rcases List.mem_append.1 h with h | h
  · exact h1 n ro st h
  · exact h2 n ro st h

theorem get_existing_trace (resp : Except PyError (List KBSummary)) (n : String) :
    (get_existing_knowledge_base resp n).2 = [CallEvent.listKnowledgeBases] := by
  unfold get_existing_knowledge_base
  split <;> rfl

theorem main_associate_cases (env : Env) (an : String) (out : Output)
    (kb : String) :
    (∃ flag, main_associate env an out kb =
       ({ out with agent_associated := some flag }, [CallEvent.listAgents])) ∨
    (∃ flag a, main_associate env an out kb =
       ({ out with agent_associated := some flag },
        [CallEvent.listAgents, CallEvent.associateAgentKnowledgeBase a kb])) := by
  unfold main_associate
  split
  · exact Or.inl ⟨false, rfl⟩
  · split
    · exact Or.inl ⟨false, rfl⟩
    · split
      · exact Or.inr ⟨true, _, rfl⟩
      · exact Or.inr ⟨false, _, rfl⟩

theorem main_associate_shape (env : Env) (an : String) (out : Output)
    (kb : String) :
    ∀ ev ∈ (main_associate env an out kb).2,
      ev = CallEvent.listAgents ∨
      ∃ a2 k2, ev = CallEvent.associateAgentKnowledgeBase a2 k2 := by
  intro ev hev
  rcases main_associate_cases env an out kb with ⟨flag, heq⟩ | ⟨flag, a, heq⟩
  · rw [heq] at hev
    simp only [List.mem_singleton] at hev
    exact Or.inl hev
  · rw [heq] at hev
    simp only [List.mem_cons, List.not_mem_nil, or_false] at hev
    rcases hev with rfl | rfl
    · exact Or.inl rfl
    · exact Or.inr ⟨_, _, rfl⟩

theorem main_associate_fields (env : Env) (an : String) (out : Output)
    (kb : String) :
    ∃ flag, (main_associate env an out kb).1 =
      { out with agent_associated := some flag } := by
  rcases main_associate_cases env an out kb with ⟨flag, heq⟩ | ⟨flag, a, heq⟩ <;>
    exact ⟨flag, by rw [heq]⟩

theorem sync_cases (env : Env) (kb ds : String) (t : Nat) :
    (∃ e, env.start_ingestion_job_resp = .error e ∧
       sync_documents_to_kb env kb ds t =
         (.error e, [CallEvent.startIngestionJob kb ds])) ∨
    (∃ jid, env.start_ingestion_job_resp = .ok jid ∧
       sync_documents_to_kb env kb ds t =
         ((wait_for_ingestion_job env.get_ingestion_job t).1,
          [CallEvent.startIngestionJob kb ds] ++
            (wait_for_ingestion_job env.get_ingestion_job t).2)) := by
  unfold sync_documents_to_kb
  simp only [start_ingestion_job]
  cases hst : env.start_ingestion_job_resp with
  | error e => exact Or.inl ⟨e, rfl, rfl⟩
  | ok jid =>
    refine Or.inr ⟨jid, rfl, ?_⟩
    rcases hw : wait_for_ingestion_job env.get_ingestion_job t with ⟨wr, wtr⟩
    rfl

theorem sync_shape (env : Env) (kb ds : String) (t : Nat) :
    ∀ ev ∈ (sync_documents_to_kb env kb ds t).2,
      ev = CallEvent.startIngestionJob kb ds ∨
      ∃ j, ev = CallEvent.getIngestionJob j := by
  intro ev hev
  rcases sync_cases env kb ds t with ⟨e, _, heq⟩ | ⟨jid, _, heq⟩ <;> rw [heq] at hev
  · simp at hev; exact Or.inl hev
  · simp only [List.mem_append] at hev
    rcases hev with h | h
    · simp at h; exact Or.inl h
    · have h2 := ingestion_wait_loop_trace env.get_ingestion_job t (t * 6) 0 ev
      unfold wait_for_ingestion_job at h
      exact Or.inr (h2 h)

theorem ing_assoc_skip_eq (args : Args) (env : Env) (out : Output)
    (kb ds : String) (hskip : args.skip_ingestion = true) :
    main_ingestion_and_assoc args env out kb ds =
      (.ok (main_associate env args.agent_name (skip_updated_out out) kb).1,
       (main_associate env args.agent_name (skip_updated_out out) kb).2) := by
  unfold main_ingestion_and_assoc
  rw [if_pos hskip]

theorem ing_assoc_sync_ok_eq (args : Args) (env : Env) (out : Output)
    (kb ds : String) (job : IngestionJob)
    (hskip : args.skip_ingestion = false)
    (hsync : (sync_documents_to_kb env kb ds args.ingestion_timeout).1 = .ok job) :
    main_ingestion_and_assoc args env out kb ds =
      (.ok (main_associate env args.agent_name (ing_updated_out out job) kb).1,
       (sync_documents_to_kb env kb ds args.ingestion_timeout).2 ++
         (main_associate env args.agent_name (ing_updated_out out job) kb).2) := by
  unfold main_ingestion_and_assoc
  rw [if_neg (by simp [hskip])]
  rcases hs : sync_documents_to_kb env kb ds args.ingestion_timeout with ⟨rs, trs⟩
  rw [hs] at hsync
  have hrs : rs = .ok job := hsync
  subst hrs
  rfl

theorem ing_assoc_sync_error (args : Args) (env : Env) (out : Output)
    (kb ds : String) (e : PyError)
    (hskip : args.skip_ingestion = false)
    (hsync : (sync_documents_to_kb env kb ds args.ingestion_timeout).1 = .error e) :
    (main_ingestion_and_assoc args env out kb ds).1 = .error (e, out) ∧
    (main_ingestion_and_assoc args env out kb ds).2 =
      (sync_documents_to_kb env kb ds args.ingestion_timeout).2 := by
  unfold main_ingestion_and_assoc
  rw [if_neg (by simp [hskip])]
  rcases hs : sync_documents_to_kb env kb ds args.ingestion_timeout with ⟨rs, trs⟩
  rw [hs] at hsync
  have hrs : rs = .error e := hsync
  subst hrs
  exact ⟨rfl, rfl⟩

theorem main_body_existing_nonempty (args : Args) (env : Env) (out : Output)
    (acct : String) (kbs : List KBSummary) (kb : KBSummary) (d : DSSummary)
    (ds : List DSSummary)
    (hacct : env.get_caller_identity = .ok acct)
    (hlist : env.list_knowledge_bases = .ok kbs)
    (hfind : kbs.find? (fun k => k.name == args.agent_name ++ "-kb") = some kb)
    (hds : env.list_data_sources kb.knowledgeBaseId = .ok (d :: ds)) :
    main_body args env out =
      ((main_ingestion_and_assoc args env (existing_out out kb d)
          kb.knowledgeBaseId d.dataSourceId).1,
       CallEvent.getCallerIdentity ::
         ([CallEvent.listKnowledgeBases] ++
          [CallEvent.listDataSources kb.knowledgeBaseId] ++
          (main_ingestion_and_assoc args env (existing_out out kb d)
            kb.knowledgeBaseId d.dataSourceId).2)) := by
  have hg : get_existing_knowledge_base env.list_knowledge_bases
      (args.agent_name ++ "-kb") = (.ok (some kb), [CallEvent.listKnowledgeBases]) := by
    unfold get_existing_knowledge_base
    rw [hlist]
    simp [hfind]
  unfold main_body
  simp only [hacct, hg, hds]
  rfl

theorem ing_assoc_shape (args : Args) (env : Env) (out : Output) (kb ds : String) :
    ∀ ev ∈ (main_ingestion_and_assoc args env out kb ds).2, ing_assoc_ev kb ds ev := by
  intro ev hev
  by_cases hskip : args.skip_ingestion = true
  · rw [ing_assoc_skip_eq args env out kb ds hskip] at hev
    rcases main_associate_shape env args.agent_name (skip_updated_out out) kb ev hev
      with h | ⟨a2, k2, h⟩
    · exact Or.inr (Or.inr (Or.inl h))
    · exact Or.inr (Or.inr (Or.inr ⟨a2, k2, h⟩))
  · have hskip' : args.skip_ingestion = false := by
      simpa using hskip
    rcases hre : (sync_documents_to_kb env kb ds args.ingestion_timeout).1
      with e | job
    · obtain ⟨h1, h2⟩ := ing_assoc_sync_error args env out kb ds e hskip' hre
      rw [h2] at hev
      rcases sync_shape env kb ds args.ingestion_timeout ev hev with h | ⟨j, h⟩
      · exact Or.inl h
      · exact Or.inr (Or.inl ⟨j, h⟩)
    · rw [ing_assoc_sync_ok_eq args env out kb ds job hskip' hre] at hev
      simp only [List.mem_append] at hev
      rcases hev with h | h
      · rcases sync_shape env kb ds args.ingestion_timeout ev h with h3 | ⟨j, h3⟩
        · exact Or.inl h3
        · exact Or.inr (Or.inl ⟨j, h3⟩)
      · rcases main_associate_shape env args.agent_name (ing_updated_out out job)
            kb ev h with h3 | ⟨a2, k2, h3⟩
        · exact Or.inr (Or.inr (Or.inl h3))
        · exact Or.inr (Or.inr (Or.inr ⟨a2, k2, h3⟩))

theorem ing_assoc_ok_fields (args : Args) (env : Env) (out : Output)
    (kb ds : String) (o : Output)
    (h : (main_ingestion_and_assoc args env out kb ds).1 = .ok o) :
    o.status = out.status ∧ o.data_source_id = out.data_source_id ∧
    o.knowledge_base_id = out.knowledge_base_id := by
  by_cases hskip : args.skip_ingestion = true
  · rw [ing_assoc_skip_eq args env out kb ds hskip] at h
    have ho : (main_associate env args.agent_name (skip_updated_out out) kb).1 = o := by
      simpa using h
    obtain ⟨flag, hfl⟩ :=
      main_associate_fields env args.agent_name (skip_updated_out out) kb
    rw [hfl] at ho
    rw [← ho]
    exact ⟨rfl, rfl, rfl⟩
  · have hskip' : args.skip_ingestion = false := by simpa using hskip
    rcases hre : (sync_documents_to_kb env kb ds args.ingestion_timeout).1
      with e | job
    · obtain ⟨h1, h2⟩ := ing_assoc_sync_error args env out kb ds e hskip' hre
      rw [h1] at h
      simp at h
    · rw [ing_assoc_sync_ok_eq args env out kb ds job hskip' hre] at h
      have ho : (main_associate env args.agent_name (ing_updated_out out job) kb).1 = o := by
        simpa using h
      obtain ⟨flag, hfl⟩ :=
        main_associate_fields env args.agent_name (ing_updated_out out job) kb
      rw [hfl] at ho
      rw [← ho]
      exact ⟨rfl, rfl, rfl⟩

/-! ### Claim C7: reuse of an existing knowledge base -/

/-- C7: when a knowledge base with the computed name already exists and has at
least one data source, the run records overall status existing, reuses the id
of the first existing data source, and never calls create_data_source; the
record written by a completing run carries exactly those values. -/
theorem claim_c7_existing_reuse (args : Args) (env : Env) (acct : String)
    (kbs : List KBSummary) (kb : KBSummary) (d : DSSummary) (ds : List DSSummary)
    (henable : pyLower args.enable = "true")
    (hacct : env.get_caller_identity = .ok acct)
    (hlist : env.list_knowledge_bases = .ok kbs)
    (hfind : kbs.find? (fun k => k.name == args.agent_name ++ "-kb") = some kb)
    (hds : env.list_data_sources kb.knowledgeBaseId = .ok (d :: ds)) :
    no_create_data_source (mainRun args env).trace ∧
    result_records_existing (mainRun args env) d.dataSourceId := by
  have hb := main_body_existing_nonempty args env (initial_output args.enable)
    acct kbs kb d ds hacct hlist hfind hds
  have hneg : ¬(pyLower args.enable ≠ "true") := by simp [henable]
  have htr : (mainRun args env).trace =
      CallEvent.getCallerIdentity ::
        ([CallEvent.listKnowledgeBases] ++
         [CallEvent.listDataSources kb.knowledgeBaseId] ++
         (main_ingestion_and_assoc args env
           (existing_out (initial_output args.enable) kb d)
           kb.knowledgeBaseId d.dataSourceId).2) := by
    unfold mainRun
    rw [if_neg hneg, hb]
    rcases hia : (main_ingestion_and_assoc args env
        (existing_out (initial_output args.enable) kb d)
        kb.knowledgeBaseId d.dataSourceId).1 with ⟨e, o1⟩ | o <;> rfl
  constructor
  · intro k n u mt ov hm
    rw [htr] at hm
    simp only [List.mem_cons, List.mem_append, List.mem_singleton] at hm
    rcases hm with h | (h | h) | h
    · simp at h
    · simp at h
    · simp at h
    · rcases ing_assoc_shape args env (existing_out (initial_output args.enable) kb d)
          kb.knowledgeBaseId d.dataSourceId _ h with h2 | ⟨j, h2⟩ | h2 | ⟨a2, k2, h2⟩ <;>
        simp at h2
  · intro o ho
    rcases hia : (main_ingestion_and_assoc args env
        (existing_out (initial_output args.enable) kb d)
        kb.knowledgeBaseId d.dataSourceId).1 with ⟨e, o1⟩ | o2
    · have hwn : (mainRun args env).written = none := by
        unfold mainRun
        rw [if_neg hneg, hb, hia]
      rw [hwn] at ho
      cases ho
    · have hws : (mainRun args env).written = some o2 := by
        unfold mainRun
        rw [if_neg hneg, hb, hia]
      rw [hws] at ho
      obtain rfl : o2 = o := by simpa using ho
      have hf := ing_assoc_ok_fields args env
        (existing_out (initial_output args.enable) kb d)
        kb.knowledgeBaseId d.dataSourceId o2 (by rw [hia])
      refine ⟨hf.1.trans rfl, (hf.2.1).trans rfl⟩

/-- Witness for C7 at a concrete run: an existing base with one data source and
ingestion skipped; the run completes and the written record reuses ds-1. -/
theorem claim_c7_witness :
    no_create_data_source (mainRun argsSkipIngestion envExistingOk).trace ∧
    result_records_existing (mainRun argsSkipIngestion envExistingOk) "ds-1" :=
  claim_c7_existing_reuse argsSkipIngestion envExistingOk "123456789012"
    [{ name := "agent-kb", knowledgeBaseId := "kb-1" }]
    { name := "agent-kb", knowledgeBaseId := "kb-1" }
    { dataSourceId := "ds-1" } [] (by decide) rfl rfl (by decide) rfl

/-! ### Claim C1: a FAILED ingestion job aborts the run -/

/-- C1 (amended): when the polled ingestion job reaches FAILED, the raised
failure embeds the failureReasons, main catches it, records status error with
the stringified cause in the in-memory record - whose ingestion outcome still
carries its initial skipped value - re-raises without ever attempting agent
association, and writes no output record.  This replaces the original claim
that the orchestrator completes without raising and still associates. -/
theorem claim_c1_failed_ingestion_aborts (args : Args) (env : Env)
    (acct : String) (kbs : List KBSummary) (kb : KBSummary) (d : DSSummary)
    (ds : List DSSummary) (jid : String) (k : Nat) (jb : IngestionJob)
    (henable : pyLower args.enable = "true")
    (hskip : args.skip_ingestion = false)
    (hacct : env.get_caller_identity = .ok acct)
    (hlist : env.list_knowledge_bases = .ok kbs)
    (hfind : kbs.find? (fun x => x.name == args.agent_name ++ "-kb") = some kb)
    (hds : env.list_data_sources kb.knowledgeBaseId = .ok (d :: ds))
    (hstart : env.start_ingestion_job_resp = .ok jid)
    (hk : k < args.ingestion_timeout * 6)
    (hpre : ∀ j, j < k → ∃ jb2, env.get_ingestion_job j = .ok jb2 ∧
        jb2.status ≠ "COMPLETE" ∧ jb2.status ≠ "FAILED")
    (hjb : env.get_ingestion_job k = .ok jb)
    (hf : jb.status = "FAILED") :
    (mainRun args env).outcome =
      .error (.exc ("Ingestion job failed: " ++ pyStrList jb.failureReasons)) ∧
    (mainRun args env).written = none ∧
    (mainRun args env).finalOutput.status = "error" ∧
    (mainRun args env).finalOutput.error =
      some ("Ingestion job failed: " ++ pyStrList jb.failureReasons) ∧
    (mainRun args env).finalOutput.ingestion.status = "skipped" ∧
    no_associate_call (mainRun args env).trace := by
  have hwait : (wait_for_ingestion_job env.get_ingestion_job args.ingestion_timeout).1 =
      .error (.exc ("Ingestion job failed: " ++ pyStrList jb.failureReasons)) := by
    unfold wait_for_ingestion_job
    exact ingestion_wait_loop_failed env.get_ingestion_job args.ingestion_timeout
      k _ 0 hk (fun j hj => by simpa using hpre j hj) jb (by simpa using hjb) hf
  have hsync : (sync_documents_to_kb env kb.knowledgeBaseId d.dataSourceId
      args.ingestion_timeout).1 =
      .error (.exc ("Ingestion job failed: " ++ pyStrList jb.failureReasons)) := by
    rcases sync_cases env kb.knowledgeBaseId d.dataSourceId args.ingestion_timeout
      with ⟨e, he, heq⟩ | ⟨jid2, _, heq⟩
    · rw [hstart] at he
      cases he
    · rw [heq]
      exact hwait
  obtain ⟨hia1, hia2⟩ := ing_assoc_sync_error args env
    (existing_out (initial_output args.enable) kb d)
    kb.knowledgeBaseId d.dataSourceId _ hskip hsync
  have hb := main_body_existing_nonempty args env (initial_output args.enable)
    acct kbs kb d ds hacct hlist hfind hds
  have hneg : ¬(pyLower args.enable ≠ "true") := by simp [henable]
  refine ⟨?_, ?_, ?_, ?_, ?_, ?_⟩
  · unfold mainRun
    rw [if_neg hneg, hb, hia1]
  · unfold mainRun
    rw [if_neg hneg, hb, hia1]
  · unfold mainRun
    rw [if_neg hneg, hb, hia1]
  · unfold mainRun
    rw [if_neg hneg, hb, hia1]
    rfl
  · unfold mainRun
    rw [if_neg hneg, hb, hia1]
    rfl
  · intro a2 k2 hm
    have htr : (mainRun args env).trace =
        CallEvent.getCallerIdentity ::
          ([CallEvent.listKnowledgeBases] ++
           [CallEvent.listDataSources kb.knowledgeBaseId] ++
           (main_ingestion_and_assoc args env
             (existing_out (initial_output args.enable) kb d)
             kb.knowledgeBaseId d.dataSourceId).2) := by
      unfold mainRun
      rw [if_neg hneg, hb, hia1]
    rw [htr, hia2] at hm
    simp only [List.mem_cons, List.mem_append, List.mem_singleton] at hm
    rcases hm with h | (h | h) | h
    · simp at h
    · simp at h
    · simp at h
    · rcases sync_shape env kb.knowledgeBaseId d.dataSourceId
          args.ingestion_timeout _ h with h2 | ⟨j, h2⟩ <;> simp at h2

/-- Witness for C1 at a concrete run: the first poll reports FAILED with a
parse error, the run raises, records the error, and never associates. -/
theorem claim_c1_witness :
    (mainRun argsBase envExistingFailedIngestion).finalOutput.status = "error" ∧
    (mainRun argsBase envExistingFailedIngestion).written = none ∧
    no_associate_call (mainRun argsBase envExistingFailedIngestion).trace := by
  obtain ⟨h1, h2, h3, h4, h5, h6⟩ :=
    claim_c1_failed_ingestion_aborts argsBase envExistingFailedIngestion
      "123456789012" [{ name := "agent-kb", knowledgeBaseId := "kb-1" }]
      { name := "agent-kb", knowledgeBaseId := "kb-1" }
      { dataSourceId := "ds-1" } [] "job-1" 0 jobFailedParse
      (by decide) rfl rfl rfl (by decide) rfl rfl (by decide)
      (fun j hj => absurd hj (by omega)) rfl rfl
  exact ⟨h3, h2, h6⟩

/-- C1 counterexample: on the concrete run of scenario D - the polled job
FAILED with reasons parse error - main raises the failure instead of
completing, writes nothing, and never calls agent association, refuting the
original claim. -/
theorem claim_c1_counterexample :
    (mainRun argsBase envExistingFailedIngestion).outcome =
      .error (.exc ("Ingestion job failed: " ++ pyStrList ["parse error"])) ∧
    (mainRun argsBase envExistingFailedIngestion).written = none ∧
    (mainRun argsBase envExistingFailedIngestion).trace.countP is_associate_ev = 0 := by
  refine ⟨?_, ?_, ?_⟩ <;> decide

/-! ### Created-branch trace lemmas -/

theorem ensure_vector_bucket_shape (g c : Except PyError Unit) (b : String) :
    ∀ ev ∈ (ensure_vector_bucket g c b).2,
      ev = CallEvent.getVectorBucket b ∨ ev = CallEvent.createVectorBucket b := by
  intro ev hev
  unfold ensure_vector_bucket at hev
  split at hev
  · simp at hev
    exact Or.inl hev
  · split at hev <;> (simp at hev; tauto)
  · split at hev
    · split at hev <;> (simp at hev; tauto)
    · simp at hev
      exact Or.inl hev
  · simp at hev
    exact Or.inl hev

theorem probe_vector_index_shape (g : Except PyError Unit) (b i : String) :
    ∀ ev ∈ (probe_vector_index g b i).2, ev = CallEvent.getIndex b i := by
  intro ev hev
  unfold probe_vector_index at hev
  split at hev
  · simpa using hev
  · simpa using hev
  · split at hev <;> simpa using hev
  · simpa using hev

theorem create_vector_index_shape (c : Except PyError Unit) (b i : String)
    (d : Nat) :
    ∀ ev ∈ (create_vector_index c b i d).2, ev = CallEvent.createIndex b i d := by
  intro ev hev
  unfold create_vector_index at hev
  split at hev
  · simpa using hev
  · split at hev <;> simpa using hev
  · simpa using hev

theorem ensure_s3_shape (env : Env) (b i r a : String) (d : Nat) :
    ∀ ev ∈ (ensure_s3_vectors_storage env b i r a d).2, storage_ev b i d ev := by
  intro ev hev
  unfold ensure_s3_vectors_storage at hev
  split at hev
  next e tr1 heq =>
    have ht : tr1 = (ensure_vector_bucket env.get_vector_bucket
        env.create_vector_bucket b).2 := (congrArg Prod.snd heq).symm
    subst ht
    rcases ensure_vector_bucket_shape _ _ _ ev hev with h | h <;> simp [storage_ev, h]
  next u tr1 heq =>
    have ht : tr1 = (ensure_vector_bucket env.get_vector_bucket
        env.create_vector_bucket b).2 := (congrArg Prod.snd heq).symm
    subst ht
    split at hev
    next e tr2 heq2 =>
      have ht2 : tr2 = (probe_vector_index env.get_index b i).2 :=
        (congrArg Prod.snd heq2).symm
      subst ht2
      simp only [List.mem_append] at hev
      rcases hev with h | h
      · rcases ensure_vector_bucket_shape _ _ _ ev h with h2 | h2 <;>
          simp [storage_ev, h2]
      · have := probe_vector_index_shape env.get_index b i ev h
        simp [storage_ev, this]
    next index_exists tr2 heq2 =>
      have ht2 : tr2 = (probe_vector_index env.get_index b i).2 :=
        (congrArg Prod.snd heq2).symm
      subst ht2
      split at hev <;>
        (split at hev
         next e2 tr4 heq4 =>
           first
           | (have ht4 : tr4 = (create_vector_index env.create_index b i d).2 :=
                (congrArg Prod.snd heq4).symm
              subst ht4
              simp only [List.mem_append] at hev
              rcases hev with ((h | h) | h) | h
              · rcases ensure_vector_bucket_shape _ _ _ ev h with h2 | h2 <;>
                  simp [storage_ev, h2]
              · have := probe_vector_index_shape env.get_index b i ev h
                simp [storage_ev, this]
              · simp at h
                simp [storage_ev, h]
              · have := create_vector_index_shape env.create_index b i d ev h
                simp [storage_ev, this])
           | (have ht4 : tr4 = (create_vector_index env.create_index b i d).2 :=
                (congrArg Prod.snd heq4).symm
              subst ht4
              simp only [List.mem_append] at hev
              rcases hev with ((h | h) | h) | h
              · rcases ensure_vector_bucket_shape _ _ _ ev h with h2 | h2 <;>
                  simp [storage_ev, h2]
              · have := probe_vector_index_shape env.get_index b i ev h
                simp [storage_ev, this]
              · simp at h
              · have := create_vector_index_shape env.create_index b i d ev h
                simp [storage_ev, this])
         next u2 tr4 heq4 =>
           first
           | (have ht4 : tr4 = (create_vector_index env.create_index b i d).2 :=
                (congrArg Prod.snd heq4).symm
              subst ht4
              simp only [List.mem_append] at hev
              rcases hev with ((h | h) | h) | h
              · rcases ensure_vector_bucket_shape _ _ _ ev h with h2 | h2 <;>
                  simp [storage_ev, h2]
              · have := probe_vector_index_shape env.get_index b i ev h
                simp [storage_ev, this]
              · simp at h
                simp [storage_ev, h]
              · have := create_vector_index_shape env.create_index b i d ev h
                simp [storage_ev, this])
           | (have ht4 : tr4 = (create_vector_index env.create_index b i d).2 :=
                (congrArg Prod.snd heq4).symm
              subst ht4
              simp only [List.mem_append] at hev
              rcases hev with ((h | h) | h) | h
              · rcases ensure_vector_bucket_shape _ _ _ ev h with h2 | h2 <;>
                  simp [storage_ev, h2]
              · have := probe_vector_index_shape env.get_index b i ev h
                simp [storage_ev, this]
              · simp at h
              · have := create_vector_index_shape env.create_index b i d ev h
                simp [storage_ev, this]))

theorem role_bound_of_storage {r b i : String} {d : Nat} {tr : List CallEvent}
    (h : ∀ ev ∈ tr, storage_ev b i d ev) : role_bound r tr := by
  intro n ro st hm
  rcases h _ hm with h2 | h2 | h2 | h2 | h2 <;> simp at h2

theorem coll_count_zero_of_storage {b i : String} {d : Nat} {tr : List CallEvent}
    (h : ∀ ev ∈ tr, storage_ev b i d ev) :
    tr.countP is_ensure_collection_event = 0 := by
  apply countP_zero_of_shape
  intro ev hev
  rcases h ev hev with rfl | rfl | rfl | rfl | rfl <;> rfl

theorem create_kb_shape (cr : Except PyError String)
    (gs : Nat → Except PyError String) (n d role e : String)
    (cfg : S3VectorsConfig) :
    ∀ ev ∈ (create_knowledge_base cr gs n d role e cfg).2,
      ev = CallEvent.createKnowledgeBase n role "S3_VECTORS" ∨
      ∃ j, ev = CallEvent.getKnowledgeBase j := by
  intro ev hev
  unfold create_knowledge_base at hev
  split at hev
  · simp at hev
    exact Or.inl hev
  · split at hev
    next e2 tr heq =>
      have ht : tr = (kb_wait_loop gs 0 30).2 := (congrArg Prod.snd heq).symm
      subst ht
      simp only [List.mem_cons] at hev
      rcases hev with rfl | h
      · exact Or.inl rfl
      · exact Or.inr (kb_wait_loop_trace gs 30 0 ev h)
    next u tr heq =>
      have ht : tr = (kb_wait_loop gs 0 30).2 := (congrArg Prod.snd heq).symm
      subst ht
      simp only [List.mem_cons] at hev
      rcases hev with rfl | h
      · exact Or.inl rfl
      · exact Or.inr (kb_wait_loop_trace gs 30 0 ev h)

theorem create_kb_oss_shape (cr : Except PyError String)
    (gs : Nat → Except PyError String) (n d role e : String)
    (cfg : OpenSearchConfig) (ix : String) :
    ∀ ev ∈ (create_knowledge_base_with_opensearch cr gs n d role e cfg ix).2,
      ev = CallEvent.createKnowledgeBase n role "OPENSEARCH_SERVERLESS" ∨
      ∃ j, ev = CallEvent.getKnowledgeBase j := by
  intro ev hev
  unfold create_knowledge_base_with_opensearch at hev
  split at hev
  · simp at hev
    exact Or.inl hev
  · split at hev
    next e2 tr heq =>
      have ht : tr = (kb_wait_loop gs 0 30).2 := (congrArg Prod.snd heq).symm
      subst ht
      simp only [List.mem_cons] at hev
      rcases hev with rfl | h
      · exact Or.inl rfl
      · exact Or.inr (kb_wait_loop_trace gs 30 0 ev h)
    next u tr heq =>
      have ht : tr = (kb_wait_loop gs 0 30).2 := (congrArg Prod.snd heq).symm
      subst ht
      simp only [List.mem_cons] at hev
      rcases hev with rfl | h
      · exact Or.inl rfl
      · exact Or.inr (kb_wait_loop_trace gs 30 0 ev h)

theorem create_kb_role_bound (cr : Except PyError String)
    (gs : Nat → Except PyError String) (n d role e : String)
    (cfg : S3VectorsConfig) :
    role_bound role (create_knowledge_base cr gs n d role e cfg).2 := by
  intro nm ro st hm
  rcases create_kb_shape cr gs n d role e cfg _ hm with h | ⟨j, h⟩
  · simp at h
    exact h.2.1
  · simp at h

theorem create_kb_oss_role_bound (cr : Except PyError String)
    (gs : Nat → Except PyError String) (n d role e : String)
    (cfg : OpenSearchConfig) (ix : String) :
    role_bound role (create_knowledge_base_with_opensearch cr gs n d role e cfg ix).2 := by
  intro nm ro st hm
  rcases create_kb_oss_shape cr gs n d role e cfg ix _ hm with h | ⟨j, h⟩
  · simp at h
    exact h.2.1
  · simp at h

theorem create_kb_coll_count (cr : Except PyError String)
    (gs : Nat → Except PyError String) (n d role e : String)
    (cfg : S3VectorsConfig) :
    ((create_knowledge_base cr gs n d role e cfg).2).countP
      is_ensure_collection_event = 0 := by
  apply countP_zero_of_shape
  intro ev hev
  rcases create_kb_shape cr gs n d role e cfg ev hev with rfl | ⟨j, rfl⟩ <;> rfl

theorem create_kb_oss_coll_count (cr : Except PyError String)
    (gs : Nat → Except PyError String) (n d role e : String)
    (cfg : OpenSearchConfig) (ix : String) :
    ((create_knowledge_base_with_opensearch cr gs n d role e cfg ix).2).countP
      is_ensure_collection_event = 0 := by
  apply countP_zero_of_shape
  intro ev hev
  rcases create_kb_oss_shape cr gs n d role e cfg ix ev hev with rfl | ⟨j, rfl⟩ <;> rfl

theorem main_try_role_bound (args : Args) (env : Env)
    (a k vb vi role emb : String) (out : Output) :
    role_bound role (main_try_s3_vectors args env a k vb vi role emb out).2 := by
  have hshape := ensure_s3_shape env vb vi args.region a 1024
  simp only [main_try_s3_vectors]
  split
  next e tr heq =>
    have ht : tr = (ensure_s3_vectors_storage env vb vi args.region a 1024).2 :=
      (congrArg Prod.snd heq).symm
    subst ht
    exact role_bound_of_storage hshape
  next cfg tr1 heq =>
    have ht : tr1 = (ensure_s3_vectors_storage env vb vi args.region a 1024).2 :=
      (congrArg Prod.snd heq).symm
    subst ht
    split
    next e tr2 heq2 =>
      have ht2 : tr2 = (create_knowledge_base env.create_knowledge_base_resp
          env.get_kb_status k ("Knowledge Base para " ++ args.agent_name) role emb
          cfg).2 := (congrArg Prod.snd heq2).symm
      subst ht2
      exact role_bound_append (role_bound_of_storage hshape)
        (create_kb_role_bound env.create_knowledge_base_resp env.get_kb_status k
          ("Knowledge Base para " ++ args.agent_name) role emb cfg)
    next kbId tr2 heq2 =>
      have ht2 : tr2 = (create_knowledge_base env.create_knowledge_base_resp
          env.get_kb_status k ("Knowledge Base para " ++ args.agent_name) role emb
          cfg).2 := (congrArg Prod.snd heq2).symm
      subst ht2
      exact role_bound_append (role_bound_of_storage hshape)
        (create_kb_role_bound env.create_knowledge_base_resp env.get_kb_status k
          ("Knowledge Base para " ++ args.agent_name) role emb cfg)

theorem main_try_coll_count (args : Args) (env : Env)
    (a k vb vi role emb : String) (out : Output) :
    ((main_try_s3_vectors args env a k vb vi role emb out).2).countP
      is_ensure_collection_event = 0 := by
  have hshape := ensure_s3_shape env vb vi args.region a 1024
  simp only [main_try_s3_vectors]
  split
  next e tr heq =>
    have ht : tr = (ensure_s3_vectors_storage env vb vi args.region a 1024).2 :=
      (congrArg Prod.snd heq).symm
    subst ht
    exact coll_count_zero_of_storage hshape
  next cfg tr1 heq =>
    have ht : tr1 = (ensure_s3_vectors_storage env vb vi args.region a 1024).2 :=
      (congrArg Prod.snd heq).symm
    subst ht
    split
    next e tr2 heq2 =>
      have ht2 : tr2 = (create_knowledge_base env.create_knowledge_base_resp
          env.get_kb_status k ("Knowledge Base para " ++ args.agent_name) role emb
          cfg).2 := (congrArg Prod.snd heq2).symm
      subst ht2
      rw [List.countP_append, coll_count_zero_of_storage hshape,
        create_kb_coll_count env.create_knowledge_base_resp env.get_kb_status k
          ("Knowledge Base para " ++ args.agent_name) role emb cfg]
    next kbId tr2 heq2 =>
      have ht2 : tr2 = (create_knowledge_base env.create_knowledge_base_resp
          env.get_kb_status k ("Knowledge Base para " ++ args.agent_name) role emb
          cfg).2 := (congrArg Prod.snd heq2).symm
      subst ht2
      rw [List.countP_append, coll_count_zero_of_storage hshape,
        create_kb_coll_count env.create_knowledge_base_resp env.get_kb_status k
          ("Knowledge Base para " ++ args.agent_name) role emb cfg]

theorem fallback_role_bound (args : Args) (env : Env)
    (k role emb : String) (e1 : PyError) (out : Output) :
    role_bound role (main_fallback_opensearch args env k role emb e1 out).2 := by
  simp only [main_fallback_opensearch, ensure_opensearch_serverless_collection,
    create_opensearch_index]
  split
  next e tr heq =>
    have ht : tr = [CallEvent.ensureOpensearchCollection
        (collection_name_of args.agent_name) role] := (congrArg Prod.snd heq).symm
    subst ht
    intro n ro st hm
    simp at hm
  next osCfg tr1 heq =>
    have ht : tr1 = [CallEvent.ensureOpensearchCollection
        (collection_name_of args.agent_name) role] := (congrArg Prod.snd heq).symm
    subst ht
    split
    next e tr2 heq2 =>
      have ht2 : tr2 = [CallEvent.createOpensearchIndex
          (index_name_of args.agent_name)] := (congrArg Prod.snd heq2).symm
      subst ht2
      intro n ro st hm
      simp at hm
    next u tr2 heq2 =>
      have ht2 : tr2 = [CallEvent.createOpensearchIndex
          (index_name_of args.agent_name)] := (congrArg Prod.snd heq2).symm
      subst ht2
      split
      next e tr3 heq3 =>
        have ht3 : tr3 = (create_knowledge_base_with_opensearch env.create_kb_oss_resp
            env.get_kb_oss_status k ("Knowledge Base para " ++ args.agent_name) role
            emb osCfg (index_name_of args.agent_name)).2 :=
          (congrArg Prod.snd heq3).symm
        subst ht3
        intro n ro st hm
        simp only [List.mem_append] at hm
        rcases hm with (hm | hm) | hm
        · simp at hm
        · simp at hm
        · exact create_kb_oss_role_bound env.create_kb_oss_resp
            env.get_kb_oss_status k ("Knowledge Base para " ++ args.agent_name) role
            emb osCfg (index_name_of args.agent_name) n ro st hm
      next kbId tr3 heq3 =>
        have ht3 : tr3 = (create_knowledge_base_with_opensearch env.create_kb_oss_resp
            env.get_kb_oss_status k ("Knowledge Base para " ++ args.agent_name) role
            emb osCfg (index_name_of args.agent_name)).2 :=
          (congrArg Prod.snd heq3).symm
        subst ht3
        intro n ro st hm
        simp only [List.mem_append] at hm
        rcases hm with (hm | hm) | hm
        · simp at hm
        · simp at hm
        · exact create_kb_oss_role_bound env.create_kb_oss_resp
            env.get_kb_oss_status k ("Knowledge Base para " ++ args.agent_name) role
            emb osCfg (index_name_of args.agent_name) n ro st hm

theorem fallback_coll_count (args : Args) (env : Env)
    (k role emb : String) (e1 : PyError) (out : Output) :
    ((main_fallback_opensearch args env k role emb e1 out).2).countP
      is_ensure_collection_event = 1 := by
  simp only [main_fallback_opensearch, ensure_opensearch_serverless_collection,
    create_opensearch_index]
  split
  next e tr heq =>
    have ht : tr = [CallEvent.ensureOpensearchCollection
        (collection_name_of args.agent_name) role] := (congrArg Prod.snd heq).symm
    subst ht
    simp [is_ensure_collection_event]
  next osCfg tr1 heq =>
    have ht : tr1 = [CallEvent.ensureOpensearchCollection
        (collection_name_of args.agent_name) role] := (congrArg Prod.snd heq).symm
    subst ht
    split
    next e tr2 heq2 =>
      have ht2 : tr2 = [CallEvent.createOpensearchIndex
          (index_name_of args.agent_name)] := (congrArg Prod.snd heq2).symm
      subst ht2
      simp [is_ensure_collection_event]
    next u tr2 heq2 =>
      have ht2 : tr2 = [CallEvent.createOpensearchIndex
          (index_name_of args.agent_name)] := (congrArg Prod.snd heq2).symm
      subst ht2
      split
      next e tr3 heq3 =>
        have ht3 : tr3 = (create_knowledge_base_with_opensearch env.create_kb_oss_resp
            env.get_kb_oss_status k ("Knowledge Base para " ++ args.agent_name) role
            emb osCfg (index_name_of args.agent_name)).2 :=
          (congrArg Prod.snd heq3).symm
        subst ht3
        rw [List.countP_append, List.countP_append,
          create_kb_oss_coll_count env.create_kb_oss_resp env.get_kb_oss_status k
            ("Knowledge Base para " ++ args.agent_name) role emb osCfg
            (index_name_of args.agent_name)]
        simp [is_ensure_collection_event]
      next kbId tr3 heq3 =>
        have ht3 : tr3 = (create_knowledge_base_with_opensearch env.create_kb_oss_resp
            env.get_kb_oss_status k ("Knowledge Base para " ++ args.agent_name) role
            emb osCfg (index_name_of args.agent_name)).2 :=
          (congrArg Prod.snd heq3).symm
        subst ht3
        rw [List.countP_append, List.countP_append,
          create_kb_oss_coll_count env.create_kb_oss_resp env.get_kb_oss_status k
            ("Knowledge Base para " ++ args.agent_name) role emb osCfg
            (index_name_of args.agent_name)]
        simp [is_ensure_collection_event]

theorem created_finish_role_bound (args : Args) (env : Env)
    (kid stp : String) (out : Output) (tr : List CallEvent) (r : String)
    (h : role_bound r tr) :
    role_bound r (main_created_finish args env kid stp out tr).2 := by
  simp only [main_created_finish, create_data_source]
  split
  next e tr2 heq =>
    have ht : tr2 = [CallEvent.createDataSource kid
        (args.agent_name ++ "-datasource") args.s3_uri args.max_tokens
        args.overlap_percentage] := (congrArg Prod.snd heq).symm
    subst ht
    intro n ro st hm
    simp only [List.mem_append] at hm
    rcases hm with hm | hm
    · exact h n ro st hm
    · simp at hm
  next dsId tr2 heq =>
    have ht : tr2 = [CallEvent.createDataSource kid
        (args.agent_name ++ "-datasource") args.s3_uri args.max_tokens
        args.overlap_percentage] := (congrArg Prod.snd heq).symm
    subst ht
    intro n ro st hm
    simp only [List.mem_append] at hm
    rcases hm with hm | hm
    · exact h n ro st hm
    · simp at hm

theorem created_finish_coll_count (args : Args) (env : Env)
    (kid stp : String) (out : Output) (tr : List CallEvent) :
    ((main_created_finish args env kid stp out tr).2).countP
      is_ensure_collection_event = tr.countP is_ensure_collection_event := by
  simp only [main_created_finish, create_data_source]
  split
  next e tr2 heq =>
    have ht : tr2 = [CallEvent.createDataSource kid
        (args.agent_name ++ "-datasource") args.s3_uri args.max_tokens
        args.overlap_percentage] := (congrArg Prod.snd heq).symm
    subst ht
    rw [List.countP_append]
    simp [is_ensure_collection_event]
  next dsId tr2 heq =>
    have ht : tr2 = [CallEvent.createDataSource kid
        (args.agent_name ++ "-datasource") args.s3_uri args.max_tokens
        args.overlap_percentage] := (congrArg Prod.snd heq).symm
    subst ht
    rw [List.countP_append]
    simp [is_ensure_collection_event]

theorem created_finish_carried_storage (args : Args) (env : Env)
    (kid stp : String) (out : Output) (tr : List CallEvent) :
    (carried_output (main_created_finish args env kid stp out tr).1).storage_type =
      some stp := by
  simp only [main_created_finish, create_data_source]
  split
  next e tr2 heq => rfl
  next dsId tr2 heq => rfl

theorem created_branch_role_bound (args : Args) (env : Env)
    (a k vb vi : String) (out : Output) :
    role_bound (resolve_kb_role_arn env.kb_role_arn_env)
      (main_created_branch args env a k vb vi out).2 := by
  simp only [main_created_branch]
  split
  next kbId out1 tr1 heq =>
    have ht : tr1 = (main_try_s3_vectors args env a k vb vi
        (resolve_kb_role_arn env.kb_role_arn_env)
        (kb_embedding_model_arn args.region) out).2 := (congrArg Prod.snd heq).symm
    subst ht
    exact created_finish_role_bound args env kbId "S3_VECTORS" out1 _ _
      (main_try_role_bound args env a k vb vi _ _ out)
  next e1 out1 tr1 heq =>
    have ht : tr1 = (main_try_s3_vectors args env a k vb vi
        (resolve_kb_role_arn env.kb_role_arn_env)
        (kb_embedding_model_arn args.region) out).2 := (congrArg Prod.snd heq).symm
    subst ht
    split
    next e2 out2 tr2 heq2 =>
      have ht2 : tr2 = (main_fallback_opensearch args env k
          (resolve_kb_role_arn env.kb_role_arn_env)
          (kb_embedding_model_arn args.region) e1 out1).2 :=
        (congrArg Prod.snd heq2).symm
      subst ht2
      exact role_bound_append (main_try_role_bound args env a k vb vi _ _ out)
        (fallback_role_bound args env k _ _ e1 out1)
    next kbId out2 tr2 heq2 =>
      have ht2 : tr2 = (main_fallback_opensearch args env k
          (resolve_kb_role_arn env.kb_role_arn_env)
          (kb_embedding_model_arn args.region) e1 out1).2 :=
        (congrArg Prod.snd heq2).symm
      subst ht2
      exact created_finish_role_bound args env kbId "OPENSEARCH_SERVERLESS" out2 _ _
        (role_bound_append (main_try_role_bound args env a k vb vi _ _ out)
          (fallback_role_bound args env k _ _ e1 out1))

theorem ing_assoc_role_bound (args : Args) (env : Env) (out : Output)
    (kb ds : String) (r : String) :
    role_bound r (main_ingestion_and_assoc args env out kb ds).2 := by
  intro n ro st hm
  rcases ing_assoc_shape args env out kb ds _ hm with h | ⟨j, h⟩ | h | ⟨a2, k2, h⟩ <;>
    simp at h

theorem main_body_role_bound (args : Args) (env : Env) (out : Output) :
    role_bound (resolve_kb_role_arn env.kb_role_arn_env) (main_body args env out).2 := by
  intro n ro st hm
  unfold main_body at hm
  split at hm
  · simp at hm
  next account_id heq0 =>
    split at hm
    next e tr1 heq =>
      have ht : tr1 = [CallEvent.listKnowledgeBases] := by
        have h2 := congrArg Prod.snd heq
        rw [get_existing_trace] at h2
        exact h2.symm
      subst ht
      simp at hm
    next kb tr1 heq =>
      have ht : tr1 = [CallEvent.listKnowledgeBases] := by
        have h2 := congrArg Prod.snd heq
        rw [get_existing_trace] at h2
        exact h2.symm
      subst ht
      split at hm
      · simp at hm
      · split at hm
        next e tr2 heq2 =>
          have ht2 : tr2 = [CallEvent.createDataSource kb.knowledgeBaseId
              (args.agent_name ++ "-datasource") args.s3_uri args.max_tokens
              args.overlap_percentage] := (congrArg Prod.snd heq2).symm
          subst ht2
          simp at hm
        next dsId tr2 heq2 =>
          have ht2 : tr2 = [CallEvent.createDataSource kb.knowledgeBaseId
              (args.agent_name ++ "-datasource") args.s3_uri args.max_tokens
              args.overlap_percentage] := (congrArg Prod.snd heq2).symm
          subst ht2
          split at hm
          next r tr3 heq3 =>
            have h2 : (main_ingestion_and_assoc args env _
                kb.knowledgeBaseId dsId).2 = tr3 := congrArg Prod.snd heq3
            rw [← h2] at hm
            simp only [List.mem_cons, List.mem_append, List.mem_singleton] at hm
            rcases hm with h | ((h | h) | h) | h
            · simp at h
            · simp at h
            · simp at h
            · simp at h
            · exact ing_assoc_role_bound args env _ kb.knowledgeBaseId dsId _ n ro st h
      next d rest heq4 =>
        split at hm
        next r tr3 heq3 =>
          have h2 : (main_ingestion_and_assoc args env _
              kb.knowledgeBaseId d.dataSourceId).2 = tr3 := congrArg Prod.snd heq3
          rw [← h2] at hm
          simp only [List.mem_cons, List.mem_append, List.mem_singleton] at hm
          rcases hm with h | (h | h) | h
          · simp at h
          · simp at h
          · simp at h
          · exact ing_assoc_role_bound args env _ kb.knowledgeBaseId d.dataSourceId
              _ n ro st h
    next tr1 heq =>
      have ht : tr1 = [CallEvent.listKnowledgeBases] := by
        have h2 := congrArg Prod.snd heq
        rw [get_existing_trace] at h2
        exact h2.symm
      subst ht
      split at hm
      next e out1 tr2 heq2 =>
        have ht2 : tr2 = (main_created_branch args env account_id
            (args.agent_name ++ "-kb")
            (args.agent_name ++ "-vectors-" ++ account_id)
            (args.agent_name ++ "-index") out).2 := (congrArg Prod.snd heq2).symm
        subst ht2
        simp only [List.mem_cons, List.mem_append, List.mem_singleton] at hm
        rcases hm with h | h | h
        · simp at h
        · simp at h
        · exact created_branch_role_bound args env account_id _ _ _ out n ro st h
      next kbId dsId out1 tr2 heq2 =>
        have ht2 : tr2 = (main_created_branch args env account_id
            (args.agent_name ++ "-kb")
            (args.agent_name ++ "-vectors-" ++ account_id)
            (args.agent_name ++ "-index") out).2 := (congrArg Prod.snd heq2).symm
        subst ht2
        split at hm
        next r tr3 heq3 =>
          have ht3 : tr3 = (main_ingestion_and_assoc args env out1 kbId dsId).2 :=
            (congrArg Prod.snd heq3).symm
          subst ht3
          simp only [List.mem_cons, List.mem_append, List.mem_singleton] at hm
          rcases hm with h | (h | h) | h
          · simp at h
          · simp at h
          · exact created_branch_role_bound args env account_id _ _ _ out n ro st h
          · exact ing_assoc_role_bound args env out1 kbId dsId _ n ro st h

theorem aggregate_contains (e1 e2 : PyError) :
    strContains (PyError.str e1) (PyError.str (fallback_aggregate_error e1 e2)) ∧
    strContains (PyError.str e2) (PyError.str (fallback_aggregate_error e1 e2)) := by
  constructor
  · refine ⟨"No se pudo crear KB con ningún backend. S3 Vectors error: ",
      ". OpenSearch error: " ++ PyError.str e2, ?_⟩
    show "No se pudo crear KB con ningún backend. S3 Vectors error: " ++
        PyError.str e1 ++ ". OpenSearch error: " ++ PyError.str e2 = _
    rw [String.append_assoc]
  · refine ⟨"No se pudo crear KB con ningún backend. S3 Vectors error: " ++
      PyError.str e1 ++ ". OpenSearch error: ", "", ?_⟩
    show "No se pudo crear KB con ningún backend. S3 Vectors error: " ++
        PyError.str e1 ++ ". OpenSearch error: " ++ PyError.str e2 = _
    rw [String.append_empty]

theorem fallback_error_form (args : Args) (env : Env) (k role emb : String)
    (e1 : PyError) (out : Output) (eA : PyError) (out2 : Output)
    (h : (main_fallback_opensearch args env k role emb e1 out).1 = .error (eA, out2)) :
    ∃ e2, eA = fallback_aggregate_error e1 e2 := by
  simp only [main_fallback_opensearch, ensure_opensearch_serverless_collection,
    create_opensearch_index] at h
  split at h
  next e tr heq =>
    simp at h
    exact ⟨e, h.1.symm⟩
  next osCfg tr1 heq =>
    split at h
    next e tr2 heq2 =>
      simp at h
      exact ⟨e, h.1.symm⟩
    next u tr2 heq2 =>
      split at h
      next e tr3 heq3 =>
        simp at h
        exact ⟨e, h.1.symm⟩
      next kbId tr3 heq3 =>
        simp at h

/-! ### Claim C3: backend fallback -/

/-- C3: if the primary S3 Vectors provisioning raises any exception, the
OpenSearch Serverless fallback provisioning is invoked exactly once; when the
fallback succeeds the run is tagged with the fallback storage type; when the
fallback also raises, the branch aborts with one aggregate error whose message
contains both the primary and the fallback causes. -/
theorem claim_c3_backend_fallback (args : Args) (env : Env)
    (account_id kb_name vectors_bucket vectors_index : String) (out : Output)
    (e1 : PyError) (out1 : Output)
    (h1 : (main_try_s3_vectors args env account_id kb_name vectors_bucket
        vectors_index (resolve_kb_role_arn env.kb_role_arn_env)
        (kb_embedding_model_arn args.region) out).1 = .error (e1, out1)) :
    created_branch_fallback_contract args env account_id kb_name vectors_bucket
      vectors_index out e1 out1 := by
  rcases ht : main_try_s3_vectors args env account_id kb_name vectors_bucket
      vectors_index (resolve_kb_role_arn env.kb_role_arn_env)
      (kb_embedding_model_arn args.region) out with ⟨rt, trt⟩
  rw [ht] at h1
  have hrt : rt = .error (e1, out1) := h1
  subst hrt
  have hcb : main_created_branch args env account_id kb_name vectors_bucket
      vectors_index out =
      (match main_fallback_opensearch args env kb_name
          (resolve_kb_role_arn env.kb_role_arn_env)
          (kb_embedding_model_arn args.region) e1 out1 with
       | (.error (e, o2), tr2) => (.error (e, o2), trt ++ tr2)
       | (.ok (kbId, o2), tr2) =>
         main_created_finish args env kbId "OPENSEARCH_SERVERLESS" o2 (trt ++ tr2)) := by
    simp only [main_created_branch]
    rw [ht]
  have htcnt : trt.countP is_ensure_collection_event = 0 := by
    have h2 := main_try_coll_count args env account_id kb_name vectors_bucket
      vectors_index (resolve_kb_role_arn env.kb_role_arn_env)
      (kb_embedding_model_arn args.region) out
    rw [ht] at h2
    exact h2
  unfold created_branch_fallback_contract
  refine ⟨?_, ?_, ?_⟩
  · rw [hcb]
    rcases hf : main_fallback_opensearch args env kb_name
        (resolve_kb_role_arn env.kb_role_arn_env)
        (kb_embedding_model_arn args.region) e1 out1 with ⟨rf, trf⟩
    have hcnt : trf.countP is_ensure_collection_event = 1 := by
      have h2 := fallback_coll_count args env kb_name
        (resolve_kb_role_arn env.kb_role_arn_env)
        (kb_embedding_model_arn args.region) e1 out1
      rw [hf] at h2
      exact h2
    cases rf with
    | error p =>
      rcases p with ⟨eA, o2⟩
      show (trt ++ trf).countP is_ensure_collection_event = 1
      rw [List.countP_append, htcnt, hcnt]
    | ok p =>
      rcases p with ⟨kbId, o2⟩
      show ((main_created_finish args env kbId "OPENSEARCH_SERVERLESS" o2
          (trt ++ trf)).2).countP is_ensure_collection_event = 1
      rw [created_finish_coll_count, List.countP_append, htcnt, hcnt]
  · intro kbId o2 hok
    rw [hcb]
    rcases hf : main_fallback_opensearch args env kb_name
        (resolve_kb_role_arn env.kb_role_arn_env)
        (kb_embedding_model_arn args.region) e1 out1 with ⟨rf, trf⟩
    rw [hf] at hok
    have hrf : rf = .ok (kbId, o2) := hok
    subst hrf
    show (carried_output (main_created_finish args env kbId "OPENSEARCH_SERVERLESS"
        o2 (trt ++ trf)).1).storage_type = some "OPENSEARCH_SERVERLESS"
    exact created_finish_carried_storage args env kbId "OPENSEARCH_SERVERLESS" o2
      (trt ++ trf)
  · intro eA o2 herr
    rcases hf : main_fallback_opensearch args env kb_name
        (resolve_kb_role_arn env.kb_role_arn_env)
        (kb_embedding_model_arn args.region) e1 out1 with ⟨rf, trf⟩
    rw [hf] at herr
    have hrf : rf = .error (eA, o2) := herr
    subst hrf
    constructor
    · rw [hcb, hf]
    · obtain ⟨e2, he2⟩ := fallback_error_form args env kb_name
        (resolve_kb_role_arn env.kb_role_arn_env)
        (kb_embedding_model_arn args.region) e1 out1 eA o2 (by rw [hf])
      subst he2
      exact ⟨e2, rfl, (aggregate_contains e1 e2).1, (aggregate_contains e1 e2).2⟩

/-- Witness for C3 at a concrete run: the bucket probe of the primary backend
raises a generic exception, so the contract of the fallback block applies. -/
theorem claim_c3_witness :
    created_branch_fallback_contract argsBase envPrimaryDown "123456789012"
      "agent-kb" "agent-vectors-123456789012" "agent-index"
      (initial_output "true") (.exc "s3 vectors down") (initial_output "true") :=
  claim_c3_backend_fallback argsBase envPrimaryDown "123456789012" "agent-kb"
    "agent-vectors-123456789012" "agent-index" (initial_output "true")
    (.exc "s3 vectors down") (initial_output "true") (by decide)

/-! ### Claim C9: the hard-coded DataZone role -/

/-- C9: when no knowledge base exists yet and KB_ROLE_ARN is unset, every
create-knowledge-base call of the run - primary or fallback - uses the
hard-coded account-specific DataZone role rather than anything derived from
the caller's inputs. -/
theorem claim_c9_datazone_role (args : Args) (env : Env) (kbs : List KBSummary)
    (henv : env.kb_role_arn_env = none)
    (hlist : env.list_knowledge_bases = .ok kbs)
    (hfind : kbs.find? (fun x => x.name == args.agent_name ++ "-kb") = none) :
    role_bound datazone_fallback_role_arn (mainRun args env).trace := by
  have hb := main_body_role_bound args env (initial_output args.enable)
  rw [henv] at hb
  unfold mainRun
  by_cases hen : pyLower args.enable ≠ "true"
  · rw [if_pos hen]
    intro n ro st hm
    simp at hm
  · rw [if_neg hen]
    rcases hbody : main_body args env (initial_output args.enable) with ⟨r, tr⟩
    rw [hbody] at hb
    cases r with
    | error p =>
      rcases p with ⟨e, o1⟩
      exact hb
    | ok o => exact hb

/-- Witness for C9 at a concrete run: no knowledge base exists, KB_ROLE_ARN is
unset, and the run creates the base through the primary backend with the
DataZone role - visible in the recorded create call. -/
theorem claim_c9_witness :
    role_bound datazone_fallback_role_arn (mainRun argsBase envBase).trace ∧
    CallEvent.createKnowledgeBase "agent-kb" datazone_fallback_role_arn
      "S3_VECTORS" ∈ (mainRun argsBase envBase).trace :=
  ⟨claim_c9_datazone_role argsBase envBase [] rfl rfl (by decide), by decide⟩

end KBMain
